import Mathlib

/-!
Verification development for the Solyntra USSD Bitcoin-Lightning gateway.

The Python sources (`handlers.py`, `app.py`, `lightning.py`, `ai_processor.py`)
are shallowly embedded below.  Conventions of the embedding:

* Python machine integers are `Int` (they are unbounded in Python as well);
  amounts obtained from digit strings are built as `Nat` and cast.
* The `int(x * (1000 / 150))` / `int(x * (150 / 1000))` float conversions are
  embedded twice.  The flow embeddings use exact truncated rational division
  (`Nat` floor division, with truncation toward zero for negative inputs);
  `pyKesToSats64` / `pySatsToKes64` model the IEEE-754 binary64 arithmetic of
  the source exactly (dyadic values, round to nearest with ties to even,
  correctly rounded constants).  `pyKesToSats64_eq` proves the two agree on
  every amount up to 10^14; they diverge beyond roughly 3·10^14
  (`c2_counterexample_large_topup`), so the exact-rational form is a faithful
  embedding for every amount the remaining claims exercise.
* The SQLAlchemy `users` table is `db : String → Int` (phone ↦ balance_sats,
  reading an absent row yields 0, exactly as `_get_db_balance` does).
* The MeTTa atomspace is modelled as typed stores: `Balance` atoms as
  `metta : String → Option Int`, `PendingMpesa`, `Transaction` and `Invoice`
  atoms as lists; `match`/`add-atom`/`remove-atom` become the corresponding
  list and map operations.
* External collaborators (Lightning invoice ids, Intersend STK push, the
  gateway payment state, OpenAI) are parameters of the embedded functions;
  the deterministic mock Lightning backend (`api_type == "mock"`) is embedded
  in full.
-/

namespace Solyntra

/-! ## Python string primitives -/

/-- Characters Python `str.strip()` removes. -/
def isPySpace (c : Char) : Bool :=
  c == ' ' || c == '\t' || c == '\n' || c == '\r' || c.toNat == 11 || c.toNat == 12

/-- Python `str.strip()`. -/
def pyStrip (s : String) : String :=
  ⟨((s.data.dropWhile isPySpace).reverse.dropWhile isPySpace).reverse⟩

/-- Python `str.lower()` (ASCII). -/
def pyLower (s : String) : String := ⟨s.data.map Char.toLower⟩

/-- List-of-chars prefix test. -/
def isPrefixL : List Char → List Char → Bool
  | [], _ => true
  | _ :: _, [] => false
  | a :: as, b :: bs => a == b && isPrefixL as bs

/-- List-of-chars infix test. -/
def isInfixL (pat : List Char) : List Char → Bool
  | [] => pat.isEmpty
  | b :: bs => isPrefixL pat (b :: bs) || isInfixL pat bs

/-- Python `pat in s` substring test. -/
def pyIn (pat s : String) : Bool := isInfixL pat.data s.data

/-- Python `s.startswith(pfx)`. -/
def strStarts (s pfx : String) : Bool := isPrefixL pfx.data s.data

/-- Worker for `pySplitChar`. -/
def splitChAux (sep : Char) : List Char → List Char → List String
  | [], acc => [⟨acc.reverse⟩]
  | c :: cs, acc =>
      if c == sep then ⟨acc.reverse⟩ :: splitChAux sep cs []
      else splitChAux sep cs (c :: acc)

/-- Python `s.split(sep)` for a one-character separator. -/
def pySplitChar (s : String) (sep : Char) : List String := splitChAux sep s.data []

/-- Python `s.isdigit()` on ASCII digit strings. -/
def isDigitStr (s : String) : Bool := !s.data.isEmpty && s.data.all Char.isDigit

/-- Numeric value of a list of decimal digits. -/
def digitsToNat (l : List Char) : Nat := l.foldl (fun a c => a * 10 + (c.toNat - 48)) 0

/-- Python `int(s)` on an optionally signed decimal string (`none` = ValueError). -/
def pyInt (s : String) : Option Int :=
  let t := pyStrip s
  match t.data with
  | [] => none
  | '-' :: ds => if !ds.isEmpty && ds.all Char.isDigit then some (-(digitsToNat ds : Int)) else none
  | '+' :: ds => if !ds.isEmpty && ds.all Char.isDigit then some ((digitsToNat ds : Int)) else none
  | ds => if ds.all Char.isDigit then some ((digitsToNat ds : Int)) else none

/-- Helper for Python `format(n, ',')`: walk the reversed digit list inserting
a comma before every fourth digit. -/
def commaRev : List Char → Nat → List Char
  | [], _ => []
  | c :: cs, k => if k == 3 then ',' :: c :: commaRev cs 1 else c :: commaRev cs (k + 1)

/-- Python `f"{n:,}"` for a natural number. -/
def commaFmtNat (n : Nat) : String := ⟨(commaRev (toString n).data.reverse 0).reverse⟩

/-- Python `f"{i:,}"` for an integer. -/
def commaFmtInt (i : Int) : String :=
  if i < 0 then "-" ++ commaFmtNat i.natAbs else commaFmtNat i.toNat

/-- Python `s[-n:]`. -/
def strLastN (s : String) (n : Nat) : String := ⟨(s.data.reverse.take n).reverse⟩

/-- Embeds `''.join(filter(str.isdigit, s.strip()))` from `handle_topup_amount`. -/
def filterDigits (s : String) : String := ⟨(pyStrip s).data.filter Char.isDigit⟩

/-- Embeds `operation.replace('_', ' ')` (single-character replace). -/
def replaceUnderscore (s : String) : String := ⟨s.data.map (fun c => if c == '_' then ' ' else c)⟩

/-! ## Currency conversion (150 KES = 1000 sats, truncating) -/

/-- KES→sats conversion `int(kes * (1000 / 150))` used at every conversion
site (`handlers.py` 224/338/413, `app.py` 619/682, `ai_processor.py`). -/
def kesToSats (k : Nat) : Nat := k * 1000 / 150

/-- Sats→KES conversion `int(s * (150 / 1000))`. -/
def satsToKes (s : Nat) : Nat := s * 150 / 1000

/-- KES→sats on Python ints (truncation toward zero; every reachable call
site guards the amount to be ≥ 10 first). -/
def kesToSatsI (k : Int) : Int :=
  if k < 0 then -((kesToSats k.natAbs : Nat) : Int) else ((kesToSats k.toNat : Nat) : Int)

/-- Sats→KES on Python ints. -/
def satsToKesI (s : Int) : Int :=
  if s < 0 then -((satsToKes s.natAbs : Nat) : Int) else ((satsToKes s.toNat : Nat) : Int)

/-- Embeds `USSDNaturalLanguageProcessor.convert_amount` (`ai_processor.py` 325-333). -/
def convertAmount (amount : Int) (fromC toC : String) : Int :=
  if (pyLower fromC == "kes" || pyLower fromC == "shillings") &&
     (pyLower toC == "sats" || pyLower toC == "satoshis") then
    kesToSatsI amount
  else if (pyLower fromC == "sats" || pyLower fromC == "satoshis") &&
          (pyLower toC == "kes" || pyLower toC == "shillings") then
    satsToKesI amount
  else
    amount

/-! ## Faithful IEEE-754 binary64 model of the float conversions

The conversion sites compute `int(x * (1000 / 150))` in CPython double
arithmetic, not in exact rationals.  The model below represents every
(non-negative, finite) double by its exact dyadic value and rounds with
round-to-nearest, ties-to-even, which is the binary64 rounding of every
normal, non-overflowing value — all values reachable here are normal and
far below the overflow threshold 2^1024. -/

/-- Bit length with explicit fuel: the recursion halves `n` until it reaches
zero, so any fuel of at least the bit length of `n` gives the exact answer. -/
def bitsAux : Nat → Nat → Nat
  | 0, _ => 0
  | fuel + 1, n => if n = 0 then 0 else bitsAux fuel (n / 2) + 1

/-- Bit length of a natural number, exact for every `n < 2 ^ 200` — far above
any mantissa produced by the conversions below. -/
def bits (n : Nat) : Nat := bitsAux 200 n

/-- A dyadic rational `m * 2 ^ e`: the exact value of a finite non-negative
IEEE-754 binary64 number. -/
structure Dyadic where
  m : Nat
  e : Int
deriving DecidableEq

/-- Round-to-nearest, ties-to-even of `q + r / 2 ^ s` at integer precision,
given `hh = 2 ^ (s - 1)` (the halfway remainder). -/
def roundMant (q r hh : Nat) : Nat :=
  if r < hh then q else if hh < r then q + 1 else if q % 2 = 0 then q else q + 1

/-- Round a non-negative dyadic value to 53 significant bits with
round-to-nearest, ties-to-even: the IEEE-754 binary64 rounding of every
normal, non-overflowing value. -/
def roundDyadic (d : Dyadic) : Dyadic :=
  if bits d.m ≤ 53 then d
  else
    ⟨roundMant (d.m / 2 ^ (bits d.m - 53)) (d.m % 2 ^ (bits d.m - 53))
        (2 ^ (bits d.m - 53 - 1)),
      d.e + ((bits d.m - 53 : Nat) : Int)⟩

/-- CPython `float(n)` for a non-negative int `n`. -/
def float64OfNat (n : Nat) : Dyadic := roundDyadic ⟨n, 0⟩

/-- Binary64 multiplication: the correctly rounded exact product. -/
def float64Mul (a b : Dyadic) : Dyadic := roundDyadic ⟨a.m * b.m, a.e + b.e⟩

/-- The double `1000 / 150` computed by CPython: the correctly rounded
binary64 of 20/3, namely `7505999378950827 * 2 ^ (-50)` (certified by
`rate64_nearest` below). -/
def rate64 : Dyadic := ⟨7505999378950827, -50⟩

/-- The double `150 / 1000`: the correctly rounded binary64 of 3/20, namely
`5404319552844595 * 2 ^ (-55)` (certified by `rate064_nearest` below). -/
def rate064 : Dyadic := ⟨5404319552844595, -55⟩

/-- Python `int(x)` on a non-negative double: truncation of the exact value. -/
def pyIntOfDyadic (d : Dyadic) : Nat :=
  if 0 ≤ d.e then d.m * 2 ^ d.e.toNat else d.m / 2 ^ (-d.e).toNat

/-- The KES→sats conversion `int(kes * (1000 / 150))` exactly as the source's
IEEE-754 double arithmetic computes it (`handlers.py` 224/338/413, `app.py`
619/682, `ai_processor.py`). -/
def pyKesToSats64 (f : Nat) : Nat :=
  pyIntOfDyadic (float64Mul (float64OfNat f) rate64)

/-- The sats→KES conversion `int(s * (150 / 1000))` in double arithmetic. -/
def pySatsToKes64 (n : Nat) : Nat :=
  pyIntOfDyadic (float64Mul (float64OfNat n) rate064)

/-- `convert_amount` (`ai_processor.py` 325-333) on non-negative integer
amounts with its float arithmetic modelled exactly. -/
def pyConvertAmount64 (amount : Nat) (fromC toC : String) : Nat :=
  if (pyLower fromC == "kes" || pyLower fromC == "shillings") &&
     (pyLower toC == "sats" || pyLower toC == "satoshis") then
    pyKesToSats64 amount
  else if (pyLower fromC == "sats" || pyLower fromC == "satoshis") &&
          (pyLower toC == "kes" || pyLower toC == "shillings") then
    pySatsToKes64 amount
  else
    amount

/-! ## System state -/

/-- A mock Lightning invoice (`lightning.py` `create_invoice`, mock branch). -/
structure MockInvoice where
  invoiceId : String
  paymentRequest : String
  amount : Int
  userId : String
  paid : Bool
deriving DecidableEq

/-- A mock Lightning payment record. -/
structure PaymentRec where
  src : String
  dst : String
  amount : Int
deriving DecidableEq

/-- A MeTTa `Transaction` atom. -/
structure TxAtom where
  src : String
  dst : String
  amount : Int
  ty : String
  ts : String
deriving DecidableEq

/-- A MeTTa `PendingMpesa` atom. -/
structure PendingRec where
  phone : String
  invoiceId : String
  kes : Int
  sats : Int
  ts : String
deriving DecidableEq

/-- A MeTTa `Invoice` atom. -/
structure InvAtom where
  phone : String
  invoiceId : String
  amount : Int
deriving DecidableEq

/-- The shared mutable state of the gateway: database balances, the MeTTa
atomspace and the mock Lightning backend. -/
structure St where
  db : String → Int
  metta : String → Option Int
  pending : List PendingRec
  txLog : List TxAtom
  invoices : List MockInvoice
  payments : List PaymentRec
  invAtoms : List InvAtom

/-- The state with empty stores and all balances zero. -/
def stZero : St :=
  { db := fun _ => 0, metta := fun _ => none, pending := [], txLog := [],
    invoices := [], payments := [], invAtoms := [] }

/-! ## Mock Lightning backend (`lightning.py`) -/

/-- Embeds `_set_db_balance` (creates the row if absent, no clamping). -/
def dbSet (s : St) (p : String) (v : Int) : St :=
  { s with db := fun q => if q == p then v else s.db q }

/-- Embeds `_update_db_balance`: add `d` then clamp at zero (absent rows count as 0
and are created with `max(0, d)`, which coincides with the clamp). -/
def dbAdd (s : St) (p : String) (d : Int) : St := dbSet s p (max (s.db p + d) 0)

/-- Embeds `LightningAPI.get_balance` (mock → `_get_db_balance`). -/
def lnGetBalance (s : St) (p : String) : Int := s.db p

/-- Embeds `LightningAPI.create_invoice` (mock branch). `invId` stands for the
time-derived `f"inv_{int(time.time())}_{user_id}"`. -/
def lnCreateInvoice (s : St) (uid : String) (amount : Int) (invId : String) :
    MockInvoice × St :=
  let inv : MockInvoice :=
    { invoiceId := invId, paymentRequest := "lnbc" ++ toString amount ++ "1pwxyz...",
      amount := amount, userId := uid, paid := false }
  (inv, { s with invoices := s.invoices ++ [inv] })

/-- Mark the first invoice with the given payment request as paid. -/
def markPaidFirst (pr : String) : List MockInvoice → List MockInvoice
  | [] => []
  | inv :: rest =>
      if inv.paymentRequest == pr then { inv with paid := true } :: rest
      else inv :: markPaidFirst pr rest

/-- Result of a handler-level operation: success flag plus user message. -/
structure OpResult where
  ok : Bool
  msg : String
deriving DecidableEq

/-- Embeds `LightningAPI.pay_invoice` (mock branch): find the first invoice matching
the payment request, check it is unpaid and the payer can afford it, then
debit payer / credit payee in the database and mark the invoice paid. -/
def lnPayInvoice (s : St) (uid : String) (payReq : String) : OpResult × St :=
  match s.invoices.find? (fun i => i.paymentRequest == payReq) with
  | none => (⟨false, "Invoice not found"⟩, s)
  | some inv =>
      if inv.paid then (⟨false, "Invoice already paid"⟩, s)
      else if lnGetBalance s uid < inv.amount then (⟨false, "Insufficient balance"⟩, s)
      else
        let s1 := dbAdd s uid (-inv.amount)
        let s2 := dbAdd s1 inv.userId inv.amount
        (⟨true, ""⟩,
         { s2 with invoices := markPaidFirst payReq s2.invoices,
                   payments := s2.payments ++ [PaymentRec.mk uid inv.userId inv.amount] })

/-! ## `USSDHandlers` (`handlers.py`) -/

/-- Embeds `USSDHandlers.update_balance`: replace the MeTTa `Balance` atom and set
the database balance to the same value. -/
def updateBalance (s : St) (p : String) (v : Int) : St :=
  dbSet { s with metta := fun q => if q == p then some v else s.metta q } p v

/-- Embeds `USSDHandlers.get_user_balance`: read the MeTTa balance; if present and
out of sync with the Lightning (database) balance, re-sync and return the
Lightning balance, otherwise fall back to the Lightning balance. -/
def getUserBalance (s : St) (p : String) : Int × St :=
  match s.metta p with
  | some mb =>
      let lb := lnGetBalance s p
      if lb ≠ mb then (lb, updateBalance s p lb) else (lb, s)
  | none => (lnGetBalance s p, s)

/-- Embeds `USSDHandlers.normalize_phone_number`. -/
def normalizePhoneNumber (p0 : String) : String :=
  let p := pyStrip p0
  if strStarts p "0" && p.length == 10 then "+254" ++ p.drop 1
  else if strStarts p "254" && p.length == 12 then "+" ++ p
  else if strStarts p "+254" then p
  else p

/-- Embeds `USSDHandlers.validate_phone_number`: normalize the prefix; reject inputs
with no recognized prefix; accept exactly `+254` followed by 9 digits. -/
def validatePhoneNumber (p0 : String) : Bool :=
  if strStarts p0 "+254" then p0.length == 13 && isDigitStr (p0.drop 1)
  else if strStarts p0 "254" then
    let p := "+" ++ p0
    p.length == 13 && isDigitStr (p.drop 1)
  else if strStarts p0 "0" && p0.length == 10 then
    let p := "+254" ++ p0.drop 1
    p.length == 13 && isDigitStr (p.drop 1)
  else false

/-- Embeds `USSDHandlers.validate_amount`: 1-sat floor, 1,000,000-sat ceiling. -/
def validateAmount (a : Int) : Bool × String :=
  if a < 1 then (false, "Minimum amount is 1 sat")
  else if a > 1000000 then (false, "Maximum amount is 1,000,000 sats")
  else (true, "")

/-- Embeds `USSDHandlers.send_btc`: validate, check the sender balance, create and
pay a mock invoice (which already debits the sender and credits the
recipient), record a `Transaction` atom, then re-write both balances with
`update_balance` — the recipient write uses the *already credited* balance
plus the amount again. -/
def sendBtc (s : St) (fromPhone toPhone : String) (amount : Int)
    (invId ts : String) : OpResult × St :=
  let fp := normalizePhoneNumber fromPhone
  let tp := normalizePhoneNumber toPhone
  if !validatePhoneNumber fp then (⟨false, "Invalid sender phone number"⟩, s)
  else if !validatePhoneNumber tp then (⟨false, "Invalid recipient phone number"⟩, s)
  else if !(validateAmount amount).1 then (⟨false, (validateAmount amount).2⟩, s)
  else
    let senderBal := (getUserBalance s fp).1
    let s1 := (getUserBalance s fp).2
    if senderBal < amount then
      (⟨false, "Insufficient balance. Current: " ++ toString senderBal ++ " sats"⟩, s1)
    else
      let inv := (lnCreateInvoice s1 tp amount invId).1
      let s2 := (lnCreateInvoice s1 tp amount invId).2
      let payRes := (lnPayInvoice s2 fp inv.paymentRequest).1
      let s3 := (lnPayInvoice s2 fp inv.paymentRequest).2
      if !payRes.ok then (⟨false, payRes.msg⟩, s3)
      else
        let s4 := { s3 with txLog := s3.txLog ++ [TxAtom.mk fp tp amount "Lightning" ts] }
        let s5 := updateBalance s4 fp (senderBal - amount)
        let tb := (getUserBalance s5 tp).1
        let s6 := (getUserBalance s5 tp).2
        let s7 := updateBalance s6 tp (tb + amount)
        (⟨true, "Sent " ++ toString amount ++ " sats to " ++ tp ++
                ". New balance: " ++ toString (senderBal - amount) ++ " sats"⟩, s7)

/-- Embeds `USSDHandlers.receive_btc`: validate and create a mock invoice, store an
`Invoice` atom, return the short code. -/
def receiveBtc (s : St) (phone0 : String) (amount : Int) (invId : String) :
    OpResult × St :=
  let p := normalizePhoneNumber phone0
  if !validatePhoneNumber p then (⟨false, "Invalid phone number"⟩, s)
  else if !(validateAmount amount).1 then (⟨false, (validateAmount amount).2⟩, s)
  else
    let inv := (lnCreateInvoice s p amount invId).1
    let s1 := (lnCreateInvoice s p amount invId).2
    let s2 := { s1 with invAtoms := s1.invAtoms ++ [InvAtom.mk p inv.invoiceId amount] }
    (⟨true, "Invoice created: " ++ strLastN inv.invoiceId 8 ++ "\nAmount: " ++
            toString amount ++ " sats\nShare this code or pay via Lightning wallet"⟩, s2)

/-- Embeds `USSDHandlers.send_invoice`: create an invoice (for the *sender* phone,
as in the source) and report it sent to the recipient. -/
def sendInvoice (s : St) (fromPhone toPhone : String) (amount : Int)
    (invId : String) : OpResult × St :=
  let fp := normalizePhoneNumber fromPhone
  let tp := normalizePhoneNumber toPhone
  if !(validatePhoneNumber fp && validatePhoneNumber tp) then
    (⟨false, "Invalid phone number"⟩, s)
  else
    let r := (receiveBtc s fp amount invId).1
    let s1 := (receiveBtc s fp amount invId).2
    if r.ok then
      (⟨true, "Invoice sent to " ++ tp ++ "\nAmount: " ++ toString amount ++ " sats"⟩, s1)
    else (⟨false, r.msg⟩, s1)

/-- Outcome of the Intersend STK push (`initiate_mpesa_stk_push`), an
external HTTP call: failure, success without an invoice id, or success. -/
inductive StkPush where
  | fail
  | noInvoice
  | push (invoiceId : String)
deriving DecidableEq

/-- Embeds `USSDHandlers.topup_via_mpesa`: validate, enforce the 10-KES floor,
convert, fire the STK push and store a `PendingMpesa` atom.  The balance is
not touched. -/
def topupViaMpesa (s : St) (phone0 : String) (kes : Int) (stk : StkPush)
    (ts : String) : OpResult × St :=
  let p := normalizePhoneNumber phone0
  if !validatePhoneNumber p then (⟨false, "Invalid phone number"⟩, s)
  else if kes < 10 then
    (⟨false, "Minimum Lightning Network purchase is 10 KES (66 sats)"⟩, s)
  else
    let sats := kesToSatsI kes
    match stk with
    | .fail => (⟨false, "Failed to initiate M-Pesa payment. Please try again."⟩, s)
    | .noInvoice => (⟨false, "Payment initiation failed"⟩, s)
    | .push invoiceId =>
        (⟨true, "M-Pesa payment request sent to " ++ p ++ "\nAmount: " ++
                toString kes ++ " KES (" ++ toString sats ++
                " sats)\nComplete payment on your phone to receive Bitcoin"⟩,
         { s with pending := s.pending ++ [PendingRec.mk p invoiceId kes sats ts] })

/-- Embeds `remove-atom` on the `PendingMpesa` atom matched by phone, invoice id,
KES and sats amount (the timestamp is a wildcard in the source pattern). -/
def removePendingFirst (ph inv : String) (kes sats : Int) :
    List PendingRec → List PendingRec
  | [] => []
  | r :: rs =>
      if r.phone == ph && r.invoiceId == inv && r.kes == kes && r.sats == sats
      then rs else r :: removePendingFirst ph inv kes sats rs

/-- Embeds `USSDHandlers.complete_mpesa_topup`: given the gateway-reported payment
state, on `COMPLETE` find the first matching pending record, credit its sats
to the stored phone, record a `TopUp` transaction and remove the pending
record; otherwise report failure without mutating anything.  `mpesaRef`
stands for the gateway reference echoed in the message. -/
def completeMpesaTopup (s : St) (invoiceId gatewayState mpesaRef ts : String) :
    OpResult × St :=
  if gatewayState == "COMPLETE" then
    match s.pending.find? (fun r => r.invoiceId == invoiceId) with
    | some r =>
        let cur := (getUserBalance s r.phone).1
        let s1 := (getUserBalance s r.phone).2
        let newBal := cur + r.sats
        let s2 := updateBalance s1 r.phone newBal
        let s3 := { s2 with txLog := s2.txLog ++ [TxAtom.mk "M-Pesa" r.phone r.sats "TopUp" ts] }
        let s4 := { s3 with
          pending := removePendingFirst r.phone invoiceId r.kes r.sats s3.pending }
        (⟨true, "Payment confirmed! " ++ toString r.sats ++
                " sats added to your balance.\nM-Pesa Ref: " ++ mpesaRef ++
                "\nNew balance: " ++ toString newBal ++ " sats"⟩, s4)
    | none => (⟨false, "Payment completed but no matching pending transaction found"⟩, s)
  else if gatewayState == "FAILED" || gatewayState == "CANCELLED" then
    (⟨false, "Payment failed"⟩, s)
  else
    (⟨false, "Payment still pending. Please wait and try again."⟩, s)

/-- Embeds `USSDHandlers.withdraw_to_mpesa`: 100-KES floor, balance check, immediate
debit, `Withdraw` transaction atom, simulated payout. -/
def withdrawToMpesa (s : St) (phone0 : String) (kes : Int) (mpesa0 ts : String) :
    OpResult × St :=
  let p := normalizePhoneNumber phone0
  let m := normalizePhoneNumber mpesa0
  if !validatePhoneNumber p then (⟨false, "Invalid phone number"⟩, s)
  else if kes < 100 then (⟨false, "Minimum withdrawal is 100 KES"⟩, s)
  else
    let sats := kesToSatsI kes
    let cur := (getUserBalance s p).1
    let s1 := (getUserBalance s p).2
    if cur < sats then
      (⟨false, "Insufficient balance. Need " ++ toString sats ++ " sats (" ++
              toString kes ++ " KES)"⟩, s1)
    else
      let s2 := updateBalance s1 p (cur - sats)
      let s3 := { s2 with txLog := s2.txLog ++ [TxAtom.mk p "M-Pesa" sats "Withdraw" ts] }
      (⟨true, "Withdrew " ++ toString kes ++ " KES (" ++ toString sats ++
              " sats) to " ++ m ++ "\nNew balance: " ++ toString (cur - sats) ++
              " sats"⟩, s3)

/-- Safaricom dialing codes from `_detect_carrier`. -/
def safaricomCodes : List String :=
  ["701", "702", "703", "704", "705", "706", "707", "708", "709",
   "710", "711", "712", "713", "714", "715", "716", "717", "718", "719",
   "720", "721", "722", "723", "724", "725", "726", "727", "728", "729"]

/-- Airtel dialing codes from `_detect_carrier`. -/
def airtelCodes : List String :=
  ["730", "731", "732", "733", "734", "735", "736", "737", "738", "739",
   "750", "751", "752", "753", "754", "755", "756"]

/-- Telkom dialing codes from `_detect_carrier`. -/
def telkomCodes : List String := ["770", "771", "772", "773", "774", "775", "776", "777"]

/-- Embeds `USSDHandlers._detect_carrier`. -/
def detectCarrier (phone : String) : String :=
  if strStarts phone "+254" then
    let code : String := ⟨(phone.data.drop 4).take 3⟩
    if safaricomCodes.contains code then "Safaricom"
    else if airtelCodes.contains code then "Airtel"
    else if telkomCodes.contains code then "Telkom"
    else "Unknown Carrier"
  else "Unknown Carrier"

/-- Embeds `USSDHandlers.buy_airtime`: validations, 10/1000 KES bounds, balance
check, simulated carrier purchase (`_process_airtime_purchase` always
succeeds), debit and `Airtime` transaction atom. -/
def buyAirtime (s : St) (phone0 airtimePhone0 : String) (kes : Int) (ts : String) :
    OpResult × St :=
  let p := normalizePhoneNumber phone0
  let ap := normalizePhoneNumber airtimePhone0
  if !validatePhoneNumber p then (⟨false, "Invalid sender phone number"⟩, s)
  else if !validatePhoneNumber ap then (⟨false, "Invalid airtime recipient phone number"⟩, s)
  else if kes < 10 then (⟨false, "Minimum airtime purchase is 10 KES"⟩, s)
  else if kes > 1000 then (⟨false, "Maximum airtime purchase is 1,000 KES"⟩, s)
  else
    let satsNeeded := kesToSatsI kes
    let bal := (getUserBalance s p).1
    let s1 := (getUserBalance s p).2
    if bal < satsNeeded then
      (⟨false, "Insufficient balance. Need " ++ toString satsNeeded ++ " sats (" ++
              toString kes ++ " KES), have " ++ toString bal ++ " sats"⟩, s1)
    else
      let carrier := detectCarrier ap
      let s2 := updateBalance s1 p (bal - satsNeeded)
      let s3 := { s2 with
        txLog := s2.txLog ++ [TxAtom.mk p ("Airtime-" ++ carrier) satsNeeded "Airtime" ts] }
      let m :=
        if p == ap then
          "Airtime purchased successfully!\n" ++ toString kes ++ " KES airtime for " ++
          carrier ++ "\nNew balance: " ++ toString (bal - satsNeeded) ++ " sats"
        else
          "Airtime sent successfully!\n" ++ toString kes ++ " KES " ++ carrier ++
          " airtime to " ++ ap ++ "\nNew balance: " ++ toString (bal - satsNeeded) ++ " sats"
      (⟨true, m⟩, s3)

/-! ## AI layer (`ai_processor.py`), natural-language overlay -/

/-- Embeds `AIEnhancedUSSDHandler.should_use_ai`: empty input never, any input with
an active AI session context always, a bare single digit never, everything
else yes.  `aiCtxActive` stands for `session_id in session_context`. -/
def shouldUseAi (input : String) (aiCtxActive : Bool) : Bool :=
  if pyStrip input == "" then false
  else if aiCtxActive then true
  else if ["0", "1", "2", "3", "4", "5", "6", "7", "8", "9"].contains (pyStrip input) then false
  else true

/-- The mid-flow AI conversation context (`session_context[session_id]`):
operation name, awaited field and partial data. -/
structure AiCtx where
  operation : String
  awaiting : String
  data : List (String × Int)
deriving DecidableEq

/-- Embeds `data.get(key)` with the integer data the context handlers store. -/
def ctxGet (c : AiCtx) (k : String) : Int :=
  (((c.data.find? (fun kv => kv.1 == k)).map Prod.snd)).getD 0

/-- Keyword list of `_is_informational_request`. -/
def informationalKeywords : List String :=
  ["exchange", "rate", "how much", "what is", "tell me", "explain",
   "help", "info", "about", "fees", "cost", "price", "continue",
   "resume", "back", "proceed", "carry on"]

/-- Embeds `AIEnhancedUSSDHandler._is_informational_request`. -/
def isInformationalRequest (input : String) : Bool :=
  informationalKeywords.any (fun k => pyIn k (pyLower input))

/-- Embeds `AIEnhancedUSSDHandler._handle_informational_request_with_context`.
The source strings contain the two-character sequence backslash-`n` (the
Python files write `\\n` inside these literals), reproduced verbatim. -/
def handleInformationalRequestWithContext (input : String) (c : AiCtx) : String :=
  let low := pyLower input
  if ["exchange", "rate", "how much"].any (fun w => pyIn w low) then
    let base := "CON Current Exchange Rate:\\n150 KES = 1,000 sats\\n\\n"
    if c.operation == "topup_mpesa" && c.awaiting == "amount" then
      base ++ "You were entering Lightning purchase amount.\\nEnter amount in KES:"
    else if c.operation == "withdraw_mpesa" && c.awaiting == "amount" then
      base ++ "You were entering withdrawal amount.\\nEnter amount in KES:"
    else if c.operation == "send_bitcoin" && c.awaiting == "amount" then
      base ++ "You were entering Bitcoin amount.\\nEnter amount in sats:"
    else if c.operation == "send_bitcoin" && c.awaiting == "recipient" then
      base ++ "You were entering recipient phone.\\nEnter phone number:"
    else base ++ "Press 0 for main menu."
  else if ["continue", "resume", "proceed", "carry on", "back"].any (fun w => pyIn w low) then
    if c.operation == "topup_mpesa" && c.awaiting == "amount" then
      "CON Lightning Network Purchase\\n\\nBuy Bitcoin via M-Pesa\\nEnter amount in KES:"
    else if c.operation == "withdraw_mpesa" && c.awaiting == "amount" then
      "CON M-Pesa Withdrawal\\n\\nEnter amount in KES:"
    else if c.operation == "send_bitcoin" && c.awaiting == "amount" then
      "CON Send Bitcoin\\n\\nEnter amount in sats:"
    else if c.operation == "send_bitcoin" && c.awaiting == "recipient" then
      "CON Send Bitcoin\\n\\nEnter recipient phone number:"
    else "CON No pending operation to continue.\\n\\n0. Main menu"
  else if pyIn "help" low then
    let base := "CON Lightning Network Help:\\n• 150 KES = 1,000 sats\\n• Min Lightning purchase: 10 KES (66 sats)\\n• Min withdrawal: 100 KES\\n\\n"
    if c.operation != "" && c.awaiting != "" then
      let mid := base ++ "Currently: " ++ replaceUnderscore c.operation ++ " - " ++
        c.awaiting ++ "\\n\\n"
      if c.awaiting == "amount" then mid ++ "Enter numeric amount:"
      else if c.awaiting == "recipient" || c.awaiting == "phone_number" then
        mid ++ "Enter phone number:"
      else mid
    else base ++ "0. Main menu"
  else
    "CON I can help with exchange rates, fees, and instructions.\\n\\nType \x27continue\x27 to resume your transaction or \x270\x27 for main menu."

/-- Shared fallthrough of `_handle_context_based_response` (unrecognized
context: clear it and give up). -/
def ctxFallback (s : St) : String × Option AiCtx × St :=
  ("END I didn\x27t understand your response. Please try again or say \x27menu\x27 for options.", none, s)

/-- Embeds `AIEnhancedUSSDHandler._handle_context_based_response`: informational
inputs are served with the context preserved; otherwise the awaited field of
the active operation is consumed.  Returns the response, the new AI context
(`none` = cleared) and the new state. -/
def handleContextBasedResponse (s : St) (sessionPhone input : String) (c : AiCtx)
    (stk : StkPush) (ts : String) : String × Option AiCtx × St :=
  if isInformationalRequest input then
    (handleInformationalRequestWithContext input c, some c, s)
  else if c.operation == "topup_mpesa" then
    if c.awaiting == "amount" then
      match pyInt input with
      | none => ("CON Invalid amount. Enter amount in KES:", some c, s)
      | some kes =>
          if kes < 10 then
            ("CON Minimum Lightning Network purchase is 10 KES (66 sats).\nEnter amount in KES:",
             some c, s)
          else
            let sats := kesToSatsI kes
            ("CON Top up " ++ toString kes ++ " KES (" ++ commaFmtInt sats ++
             " sats)?\n\n1. Yes, send M-Pesa request\n2. Cancel",
             some ⟨"topup_mpesa", "confirmation",
                   [("kes_amount", kes), ("sats_equivalent", sats)]⟩, s)
    else if c.awaiting == "confirmation" then
      let t := pyLower (pyStrip input)
      if ["1", "yes", "y", "confirm"].contains t then
        let r := topupViaMpesa s sessionPhone (ctxGet c "kes_amount") stk ts
        ("END " ++ r.1.msg, none, r.2)
      else if ["2", "no", "n", "cancel"].contains t then
        ("END M-Pesa top-up cancelled.", none, s)
      else
        ("CON Top up " ++ toString (ctxGet c "kes_amount") ++ " KES (" ++
         commaFmtInt (ctxGet c "sats_equivalent") ++
         " sats)?\n\n1. Yes, send M-Pesa request\n2. Cancel", some c, s)
    else ctxFallback s
  else if c.operation == "withdraw_mpesa" then
    if c.awaiting == "amount" then
      match pyInt input with
      | none => ("CON Invalid amount. Enter amount in KES:", some c, s)
      | some kes =>
          if kes < 100 then ("CON Minimum withdrawal is 100 KES.\nEnter amount in KES:", some c, s)
          else
            let satsNeeded := kesToSatsI kes
            let bal := (getUserBalance s sessionPhone).1
            let s1 := (getUserBalance s sessionPhone).2
            if bal < satsNeeded then
              ("CON Insufficient balance. You have " ++ commaFmtInt bal ++
               " sats, need " ++ commaFmtInt satsNeeded ++ " sats.\nEnter amount in KES:",
               some c, s1)
            else
              ("CON Withdraw " ++ toString kes ++ " KES (" ++ commaFmtInt satsNeeded ++
               " sats)\nEnter M-Pesa phone number:",
               some ⟨"withdraw_mpesa", "phone_number",
                     [("kes_amount", kes), ("sats_needed", satsNeeded)]⟩, s1)
    else if c.awaiting == "phone_number" then
      let np := normalizePhoneNumber (pyStrip input)
      if !validatePhoneNumber np then
        ("CON Invalid phone number format.\nEnter M-Pesa phone number:", some c, s)
      else
        let r := withdrawToMpesa s sessionPhone (ctxGet c "kes_amount") np ts
        ("END " ++ r.1.msg, none, r.2)
    else ctxFallback s
  else if c.operation == "buy_airtime" then
    if c.awaiting == "amount" then
      match pyInt input with
      | none => ("CON Invalid amount. Enter amount in KES:", some c, s)
      | some kes =>
          if kes < 10 then ("CON Minimum airtime purchase is 10 KES.\nEnter amount in KES:", some c, s)
          else if kes > 1000 then
            ("CON Maximum airtime purchase is 1,000 KES.\nEnter amount in KES:", some c, s)
          else
            ("CON Buy " ++ toString kes ++ " KES airtime\n\n1. For my number (" ++
             sessionPhone ++ ")\n2. For another number",
             some ⟨"buy_airtime", "phone_confirmation", [("kes_amount", kes)]⟩, s)
    else if c.awaiting == "phone_confirmation" then
      if pyStrip input == "1" then
        let r := buyAirtime s sessionPhone sessionPhone (ctxGet c "kes_amount") ts
        ("END " ++ r.1.msg, none, r.2)
      else if pyStrip input == "2" then
        ("CON Enter phone number for airtime:",
         some ⟨"buy_airtime", "phone_number", [("kes_amount", ctxGet c "kes_amount")]⟩, s)
      else
        ("CON Buy " ++ toString (ctxGet c "kes_amount") ++
         " KES airtime\n\n1. For my number (" ++ sessionPhone ++ ")\n2. For another number",
         some c, s)
    else if c.awaiting == "phone_number" then
      let np := normalizePhoneNumber (pyStrip input)
      if !validatePhoneNumber np then
        ("CON Invalid phone number format.\nEnter phone number for airtime:", some c, s)
      else
        let r := buyAirtime s sessionPhone np (ctxGet c "kes_amount") ts
        ("END " ++ r.1.msg, none, r.2)
    else ctxFallback s
  else ctxFallback s

/-- Outcome of `AIEnhancedUSSDHandler.process_with_ai`: either a concrete
context-based response, or a hand-off to the external OpenAI intent parser
(which never mutates the USSD session store). -/
inductive AiOut where
  | resp (text : String) (ctx : Option AiCtx) (st : St)
  | oracle (input : String) (st : St)

/-- Embeds `AIEnhancedUSSDHandler.process_with_ai` (context dispatch): with an
active context awaiting a field, the latest `*`-separated part of the input
is fed to `_handle_context_based_response`; otherwise the raw input goes to
the OpenAI function-calling oracle. -/
def processWithAi (s : St) (sessionPhone input : String) (ctx : Option AiCtx)
    (stk : StkPush) (ts : String) : AiOut :=
  match ctx with
  | some c =>
      if c.awaiting != "" then
        let latest := (pySplitChar input '*').getLastD input
        let r := handleContextBasedResponse s sessionPhone latest c stk ts
        .resp r.1 r.2.1 r.2.2
      else .oracle input s
  | none => .oracle input s

/-! ## USSD engine (`app.py`) -/

/-- A session-data value (`USSDSession.data` holds phone strings and KES
integers). -/
inductive SessVal where
  | vs (s : String)
  | vi (n : Int)
deriving DecidableEq

/-- Embeds `USSDSession`: per-session phone number, menu state and scratch data. -/
structure USSDSession where
  phone : String
  state : String
  data : List (String × SessVal)
deriving DecidableEq

/-- Python dict assignment on an association list (insertion order kept). -/
def assocSet {α : Type} : List (String × α) → String → α → List (String × α)
  | [], k, v => [(k, v)]
  | (k0, v0) :: rest, k, v =>
      if k0 == k then (k0, v) :: rest else (k0, v0) :: assocSet rest k v

/-- Embeds `session.get_data(key)` for string values (`None` is unreachable in the
engine flows; the default is the empty string). -/
def sessGetStr (u : USSDSession) (k : String) : String :=
  match u.data.find? (fun kv => kv.1 == k) with
  | some (_, .vs s) => s
  | _ => ""

/-- Embeds `session.get_data(key)` for integer values (default 0, see
`sessGetStr`). -/
def sessGetInt (u : USSDSession) (k : String) : Int :=
  match u.data.find? (fun kv => kv.1 == k) with
  | some (_, .vi n) => n
  | _ => 0

/-- The global `user_sessions` dict. -/
abbrev Sessions := List (String × USSDSession)

/-- Dict lookup in `user_sessions`. -/
def lookupSession (ss : Sessions) (sid : String) : Option USSDSession :=
  ((List.find? (fun kv => kv.1 == sid) ss)).map Prod.snd

/-- Embeds `clear_session`. -/
def eraseSession (ss : Sessions) (sid : String) : Sessions :=
  List.filter (fun kv => kv.1 != sid) ss

/-- Embeds `get_or_create_session`. -/
def getOrCreateSession (ss : Sessions) (sid phone : String) : Sessions :=
  match lookupSession ss sid with
  | some _ => ss
  | none => ss ++ [(sid, ⟨phone, "main_menu", []⟩)]

/-- Outcome of the M-Pesa call wrapped in `handle_topup_amount`:
the 15s SIGALRM timeout, any other raised exception, or a completed
`topup_via_mpesa` call with the given STK push result. -/
inductive MpesaCall where
  | timeout
  | raised
  | pushed (p : StkPush)
deriving DecidableEq

/-- External inputs of one request: the Lightning invoice id a creation
would use, the wall-clock timestamp string, and the M-Pesa call outcome. -/
structure Env where
  invId : String
  ts : String
  mpesa : MpesaCall

/-- Result of one flow handler: a response with the mutated session, state
and a flag recording whether `clear_session` ran, or a hand-off to the AI
layer. -/
inductive HOut where
  | done (resp : String) (sess : USSDSession) (st : St) (cleared : Bool)
  | toAi (fullText : String) (sess : USSDSession) (st : St)

/-- Embeds `handle_main_menu`: balance banner plus the six-option menu. -/
def handleMainMenu (u : USSDSession) (s : St) : String × St :=
  let bal := (getUserBalance s u.phone).1
  let s1 := (getUserBalance s u.phone).2
  ("CON Welcome to Bitcoin Lightning!\n₿ Balance: " ++ commaFmtInt bal ++
   " sats\n\nBitcoin Lightning\n1. Send BTC\n2. Receive BTC\n3. Send Invoice\n4. Buy BTC (M-Pesa)\n5. Withdraw M-Pesa\n6. Buy Airtime\n0. Exit", s1)

/-- Embeds `handle_send_btc_phone`. -/
def handleSendBtcPhone (u : USSDSession) (input : String) (s : St) : HOut :=
  if pyLower input == "back" then
    let u2 := { u with state := "main_menu" }
    let r := handleMainMenu u2 s
    .done r.1 u2 r.2 false
  else
    let np := normalizePhoneNumber input
    if !validatePhoneNumber np then
      .done "CON Invalid phone number format.\nEnter recipient phone number:" u s false
    else
      let u2 := { u with data := assocSet u.data "recipient_phone" (.vs np),
                         state := "send_btc_amount" }
      .done ("CON Send BTC to " ++ np ++ "\nEnter amount in sats:") u2 s false

/-- Embeds `handle_send_btc_amount`: parse, validate against `validate_amount`
(floor 1 sat, ceiling 1,000,000 sats), then execute `send_btc` and clear the
session. -/
def handleSendBtcAmount (u : USSDSession) (input : String) (env : Env) (s : St) : HOut :=
  if pyLower input == "back" then
    .done "CON Send BTC\nEnter recipient phone number:" { u with state := "send_btc_phone" } s false
  else
    match pyInt input with
    | none => .done "CON Invalid amount. Enter amount in sats:" u s false
    | some amount =>
        let recipient := sessGetStr u "recipient_phone"
        if !(validateAmount amount).1 then
          .done ("CON " ++ (validateAmount amount).2 ++ "\nEnter amount in sats:") u s false
        else
          let r := sendBtc s u.phone recipient amount env.invId env.ts
          if r.1.ok then .done ("END " ++ r.1.msg) u r.2 true
          else .done ("END Payment failed: " ++ r.1.msg) u r.2 true

/-- Embeds `handle_receive_btc_amount`. -/
def handleReceiveBtcAmount (u : USSDSession) (input : String) (env : Env) (s : St) : HOut :=
  if pyLower input == "back" then
    let u2 := { u with state := "main_menu" }
    let r := handleMainMenu u2 s
    .done r.1 u2 r.2 false
  else
    match pyInt input with
    | none => .done "CON Invalid amount. Enter amount in sats:" u s false
    | some amount =>
        if !(validateAmount amount).1 then
          .done ("CON " ++ (validateAmount amount).2 ++ "\nEnter amount in sats:") u s false
        else
          let r := receiveBtc s u.phone amount env.invId
          if r.1.ok then .done ("END " ++ r.1.msg) u r.2 true
          else .done ("END Invoice creation failed: " ++ r.1.msg) u r.2 true

/-- Embeds `handle_send_invoice_phone`. -/
def handleSendInvoicePhone (u : USSDSession) (input : String) (s : St) : HOut :=
  if pyLower input == "back" then
    let u2 := { u with state := "main_menu" }
    let r := handleMainMenu u2 s
    .done r.1 u2 r.2 false
  else
    let np := normalizePhoneNumber input
    if !validatePhoneNumber np then
      .done "CON Invalid phone number format.\nEnter recipient phone number:" u s false
    else
      let u2 := { u with data := assocSet u.data "invoice_recipient" (.vs np),
                         state := "send_invoice_amount" }
      .done ("CON Send invoice to " ++ np ++ "\nEnter amount in sats:") u2 s false

/-- Embeds `handle_send_invoice_amount`. -/
def handleSendInvoiceAmount (u : USSDSession) (input : String) (env : Env) (s : St) : HOut :=
  if pyLower input == "back" then
    .done "CON Send Invoice\nEnter recipient phone number:" { u with state := "send_invoice_phone" } s false
  else
    match pyInt input with
    | none => .done "CON Invalid amount. Enter amount in sats:" u s false
    | some amount =>
        let recipient := sessGetStr u "invoice_recipient"
        if !(validateAmount amount).1 then
          .done ("CON " ++ (validateAmount amount).2 ++ "\nEnter amount in sats:") u s false
        else
          let r := sendInvoice s u.phone recipient amount env.invId
          if r.1.ok then .done ("END " ++ r.1.msg) u r.2 true
          else .done ("END Invoice sending failed: " ++ r.1.msg) u r.2 true

/-- Embeds `handle_topup_amount`: `back`, the rates shortcut, then the permissive
digit-filter parse, the 10-KES floor, and the guarded `topup_via_mpesa` call
(timeout and errors clear the session and end it). -/
def handleTopupAmount (u : USSDSession) (input : String) (env : Env) (s : St) : HOut :=
  if pyLower input == "back" then
    let u2 := { u with state := "main_menu" }
    let r := handleMainMenu u2 s
    .done r.1 u2 r.2 false
  else if pyLower input == "rates?" || pyLower input == "rates" then
    .done "END Current rate: 1 KES ≈ 6.67 sats\n150 KES = 1,000 sats" u s false
  else
    let cleaned := filterDigits input
    if cleaned == "" then
      .done "CON Invalid amount. Please enter a valid number.\nEnter KES amount (Min: 10 KES):\n\n(Ask \x27rates?\x27 or say \x27back\x27)" u s false
    else
      let kes : Int := (digitsToNat cleaned.data : Nat)
      if kes < 10 then
        .done "CON Minimum top-up is 10 KES.\nEnter KES amount (Min: 10 KES):\n\n(Ask \x27rates?\x27 or say \x27back\x27)" u s false
      else
        match env.mpesa with
        | .timeout =>
            .done ("END M-Pesa service temporarily unavailable.\nPlease try again or send " ++
                   toString kes ++ " KES to PayBill 123456\nAccount: " ++ strLastN u.phone 9)
              u s true
        | .raised => .done "END Payment service error. Please try again." u s true
        | .pushed stk =>
            let r := topupViaMpesa s u.phone kes stk env.ts
            .done ("END " ++ r.1.msg) u r.2 true

/-- Embeds `handle_withdraw_amount`. -/
def handleWithdrawAmount (u : USSDSession) (input : String) (s : St) : HOut :=
  if pyLower input == "back" then
    let u2 := { u with state := "main_menu" }
    let r := handleMainMenu u2 s
    .done r.1 u2 r.2 false
  else
    match pyInt input with
    | none => .done "CON Invalid amount. Enter amount in KES:" u s false
    | some kes =>
        if kes < 100 then .done "CON Minimum withdrawal is 100 KES.\nEnter amount in KES:" u s false
        else
          let satsEq := kesToSatsI kes
          let bal := (getUserBalance s u.phone).1
          let s1 := (getUserBalance s u.phone).2
          if bal < satsEq then
            .done ("CON Insufficient balance.\nNeed " ++ toString satsEq ++ " sats, have " ++
                   toString bal ++ " sats.\nEnter amount in KES:") u s1 false
          else
            let u2 := { u with data := assocSet u.data "withdraw_kes" (.vi kes),
                               state := "withdraw_phone" }
            .done ("CON Withdraw " ++ toString kes ++ " KES (" ++ toString satsEq ++
                   " sats)\nEnter M-Pesa phone number:") u2 s1 false

/-- Embeds `handle_withdraw_phone`. -/
def handleWithdrawPhone (u : USSDSession) (input : String) (env : Env) (s : St) : HOut :=
  if pyLower input == "back" then
    .done "CON Withdraw to M-Pesa\nEnter amount in KES:" { u with state := "withdraw_amount" } s false
  else
    let np := normalizePhoneNumber input
    let kes := sessGetInt u "withdraw_kes"
    if !validatePhoneNumber np then
      .done "CON Invalid phone number format.\nEnter M-Pesa phone number:" u s false
    else
      let r := withdrawToMpesa s u.phone kes np env.ts
      if r.1.ok then .done ("END " ++ r.1.msg) u r.2 true
      else .done ("END Withdrawal failed: " ++ r.1.msg) u r.2 true

/-- Embeds `handle_airtime_amount`. -/
def handleAirtimeAmount (u : USSDSession) (input : String) (s : St) : HOut :=
  if pyLower input == "back" then
    let u2 := { u with state := "main_menu" }
    let r := handleMainMenu u2 s
    .done r.1 u2 r.2 false
  else
    match pyInt input with
    | none => .done "CON Invalid amount. Enter amount in KES:" u s false
    | some kes =>
        if kes < 10 then
          .done "CON Minimum airtime purchase is 10 KES.\nEnter amount in KES:" u s false
        else if kes > 1000 then
          .done "CON Maximum airtime purchase is 1,000 KES.\nEnter amount in KES:" u s false
        else
          let u2 := { u with data := assocSet u.data "airtime_kes" (.vi kes),
                             state := "airtime_phone" }
          .done ("CON Buy " ++ toString kes ++ " KES airtime\n\n1. For my number (" ++
                 u.phone ++ ")\n2. For another number") u2 s false

/-- Embeds `handle_airtime_phone`. -/
def handleAirtimePhone (u : USSDSession) (input : String) (env : Env) (s : St) : HOut :=
  let kes := sessGetInt u "airtime_kes"
  if pyLower input == "back" then
    .done "CON Buy Airtime\nEnter amount in KES (10-1000):" { u with state := "airtime_amount" } s false
  else if input == "1" then
    let r := buyAirtime s u.phone u.phone kes env.ts
    if r.1.ok then .done ("END " ++ r.1.msg) u r.2 true
    else .done ("END Airtime purchase failed: " ++ r.1.msg) u r.2 true
  else if input == "2" then
    .done "CON Enter phone number for airtime:" u s false
  else
    let np := normalizePhoneNumber input
    if !validatePhoneNumber np then
      .done "CON Invalid phone number format.\nEnter phone number for airtime:" u s false
    else
      let r := buyAirtime s u.phone np kes env.ts
      if r.1.ok then .done ("END " ++ r.1.msg) u r.2 true
      else .done ("END Airtime purchase failed: " ++ r.1.msg) u r.2 true

/-- Embeds `handle_main_menu_selection`: AI check on the full text, the stray
`4*amount` recovery pattern, the rates/help shortcuts, then digit dispatch. -/
def handleMainMenuSelection (u : USSDSession) (selection : String)
    (textParts : List String) (aiCtxActive : Bool) (env : Env) (s : St) : HOut :=
  let fullText := if textParts.length > 1 then String.intercalate "*" textParts else selection
  if shouldUseAi fullText aiCtxActive then .toAi fullText u s
  else if textParts.length == 2 && textParts.headD "" == "4" &&
          isDigitStr ((textParts.drop 1).headD "") then
    handleTopupAmount { u with state := "topup_amount" } ((textParts.drop 1).headD "") env s
  else if pyLower selection == "rates?" || pyLower selection == "rates" then
    .done "END Current rate: 1 KES ≈ 6.67 sats\n150 KES = 1,000 sats" u s false
  else if pyLower selection == "help" then
    .done "END USSD Commands:\n• Send: \x271*phone*amount\x27\n• Buy BTC: \x274*amount_kes\x27\n• Rates: \x27rates?\x27\n• Help: \x27help\x27" u s false
  else if selection == "1" then
    .done "CON Send BTC\nEnter recipient phone number:" { u with state := "send_btc_phone" } s false
  else if selection == "2" then
    .done "CON Receive BTC\nEnter amount in sats:" { u with state := "receive_btc_amount" } s false
  else if selection == "3" then
    .done "CON Send Invoice\nEnter recipient phone number:" { u with state := "send_invoice_phone" } s false
  else if selection == "4" then
    .done "CON Buy BTC with M-Pesa\nEnter KES amount (Min: 10 KES):\n\n(Ask \x27rates?\x27 or say \x27back\x27)" { u with state := "topup_amount" } s false
  else if selection == "5" then
    .done "CON Withdraw to M-Pesa\nEnter amount in KES:" { u with state := "withdraw_amount" } s false
  else if selection == "6" then
    .done "CON Buy Airtime\nEnter amount in KES (10-1000):" { u with state := "airtime_amount" } s false
  else if selection == "0" then
    .done "END Thank you for using Bitcoin Lightning!" u s true
  else
    let r := handleMainMenu u s
    .done r.1 u r.2 false

/-- State dispatch table at the bottom of `handle_user_input`. -/
def dispatchState (u : USSDSession) (current : String) (textParts : List String)
    (aiCtxActive : Bool) (env : Env) (s : St) : HOut :=
  if u.state == "main_menu" then handleMainMenuSelection u current textParts aiCtxActive env s
  else if u.state == "send_btc_phone" then handleSendBtcPhone u current s
  else if u.state == "send_btc_amount" then handleSendBtcAmount u current env s
  else if u.state == "receive_btc_amount" then handleReceiveBtcAmount u current env s
  else if u.state == "send_invoice_phone" then handleSendInvoicePhone u current s
  else if u.state == "send_invoice_amount" then handleSendInvoiceAmount u current env s
  else if u.state == "topup_amount" then handleTopupAmount u current env s
  else if u.state == "withdraw_amount" then handleWithdrawAmount u current s
  else if u.state == "withdraw_phone" then handleWithdrawPhone u current env s
  else if u.state == "airtime_amount" then handleAirtimeAmount u current s
  else if u.state == "airtime_phone" then handleAirtimePhone u current env s
  else
    let u2 := { u with state := "main_menu" }
    let r := handleMainMenu u2 s
    .done r.1 u2 r.2 false

/-- Engine-level outcome of one request: a concrete response with the new
session store and state, or a hand-off of the full text to the AI layer
(which never mutates the session store). -/
inductive EngineOut where
  | out (resp : String) (sessions : Sessions) (st : St)
  | toAi (fullText : String) (sessions : Sessions) (st : St)

/-- Store a handler outcome back into `user_sessions` (the session object is
mutated in place in the source; `clear_session` wins over mutation). -/
def finishHOut (ss : Sessions) (sid : String) (h : HOut) : EngineOut :=
  match h with
  | .done resp u st cleared =>
      .out resp (if cleared then eraseSession ss sid else assocSet ss sid u) st
  | .toAi ft u st => .toAi ft (assocSet ss sid u) st

/-- Embeds `handle_user_input` (the dispatch inside its `try`): the AI check on the
joined text, positional replay of multi-step `main_menu` input, the stray
`4*digits` recovery, then the per-state dispatch. -/
def handleUserInputBody (ss0 : Sessions) (sid reqPhone : String)
    (textParts : List String) (aiCtxActive : Bool) (env : Env) (s : St) : EngineOut :=
  let ss := getOrCreateSession ss0 sid reqPhone
  let u := (lookupSession ss sid).getD ⟨reqPhone, "main_menu", []⟩
  let fullText := String.intercalate "*" textParts
  if u.state == "main_menu" && shouldUseAi fullText aiCtxActive then
    .toAi fullText ss s
  else if textParts.length > 1 && u.state == "main_menu" then
    let sel := textParts.headD ""
    let second := (textParts.drop 1).headD ""
    if sel == "4" then
      finishHOut ss sid (handleTopupAmount { u with state := "topup_amount" } second env s)
    else if sel == "1" then
      finishHOut ss sid (handleSendBtcPhone { u with state := "send_btc_phone" } second s)
    else if sel == "2" then
      finishHOut ss sid (handleReceiveBtcAmount { u with state := "receive_btc_amount" } second env s)
    else if sel == "3" then
      finishHOut ss sid (handleSendInvoicePhone { u with state := "send_invoice_phone" } second s)
    else if sel == "6" then
      finishHOut ss sid (handleWithdrawAmount { u with state := "withdraw_amount" } second s)
    else if sel == "7" then
      finishHOut ss sid (handleAirtimeAmount { u with state := "airtime_amount" } second s)
    else
      finishHOut ss sid (handleMainMenuSelection u (textParts.getLastD "") textParts aiCtxActive env s)
  else
    let current := textParts.getLastD ""
    if textParts.length == 2 && textParts.headD "" == "4" &&
       isDigitStr ((textParts.drop 1).headD "") && u.state == "main_menu" then
      finishHOut ss sid (handleTopupAmount { u with state := "topup_amount" } ((textParts.drop 1).headD "") env s)
    else
      finishHOut ss sid (dispatchState u current textParts aiCtxActive env s)

/-- The `try`/`except` shell of `handle_user_input`: any exception raised by
the dispatched flow handler is caught, `clear_session` runs and the generic
terminal message is returned.  The body outcome is a parameter because the
exceptions originate in the external layers the body calls into. -/
def handleUserInputCatch (ss : Sessions) (sid : String)
    (body : Except String (String × Sessions)) : String × Sessions :=
  match body with
  | .ok r => r
  | .error _ => ("END Error processing request. Please try again.", eraseSession ss sid)

/-- Response projection of an engine outcome (`none` for an AI hand-off,
whose text comes from the external parser). -/
def engineResp : EngineOut → Option String
  | .out r _ _ => some r
  | .toAi _ _ _ => none

/-- Session-store projection of an engine outcome. -/
def engineSessions : EngineOut → Sessions
  | .out _ ss _ => ss
  | .toAi _ ss _ => ss

/-- Whether the request was handed to the AI layer. -/
def engineIsAi : EngineOut → Bool
  | .out _ _ _ => false
  | .toAi _ _ _ => true

/-- Menu state of a session after a request (empty if the session is gone). -/
def sessionStateAfter (e : EngineOut) (sid : String) : String :=
  match lookupSession (engineSessions e) sid with
  | some u => u.state
  | none => ""

/-- Response projection of a flow-handler outcome. -/
def hOutResp : HOut → String
  | .done r _ _ _ => r
  | .toAi _ _ _ => ""

/-- State projection of a flow-handler outcome. -/
def hOutSt : HOut → St
  | .done _ _ st _ => st
  | .toAi _ _ st => st

/-- Session projection of a flow-handler outcome. -/
def hOutSess : HOut → USSDSession
  | .done _ u _ _ => u
  | .toAi _ u _ => u

/-- Cleared-flag projection of a flow-handler outcome. -/
def hOutCleared : HOut → Bool
  | .done _ _ _ c => c
  | .toAi _ _ _ => false

/-! ## Concrete instances used by the individual claims -/

/-- Initial state for the C1 scenario: sender holds 100 sats, everyone else 0. -/
def c1St : St := { stZero with db := fun p => if p == "+254700000001" then 100 else 0 }

/-- Fresh one-session store for the C6 scenario. -/
def c6Sessions : Sessions := [("s1", ⟨"+254715586044", "main_menu", []⟩)]

/-- Request environment for the engine scenarios. -/
def c6Env : Env := ⟨"inv1", "t0", .pushed (.push "mp1")⟩

/-- Session sitting at the send-amount prompt for the C7 scenario. -/
def c7Sess : USSDSession :=
  ⟨"+254715586044", "send_btc_amount", [("recipient_phone", .vs "+254712345678")]⟩

/-- Initial state for the C7 scenario: the sender holds 1000 sats. -/
def c7St : St := { stZero with db := fun p => if p == "+254715586044" then 1000 else 0 }

/-- Mid-top-up AI context (`operation=topup_mpesa`, `awaiting=amount`) for C8. -/
def c8Ctx : AiCtx := ⟨"topup_mpesa", "amount", []⟩

/-- Session sitting at the top-up amount prompt for the C10 scenario. -/
def c10Sess : USSDSession := ⟨"+254715586044", "topup_amount", []⟩

/-- Pending record for the C3 reconciliation scenario. -/
def c3Pending : PendingRec := ⟨"+254712345678", "inv9", 10, 66, "t"⟩

/-- Initial state of the C3 scenario: one pending top-up, balances zero. -/
def c3St : St := { stZero with pending := [c3Pending] }

/-- Initial state for the C5 scenario: every account holds 1000 sats. -/
def c5St : St := { stZero with db := fun _ => 1000 }

/-! ## Helper lemmas -/

/-- Reading a balance returns the database balance. -/
theorem getUserBalance_fst (s : St) (p : String) : (getUserBalance s p).1 = s.db p := by
  unfold getUserBalance
  cases s.metta p with
  | none => rfl
  | some mb =>
      dsimp only
      split <;> rfl

/-- Pointwise database view of `updateBalance`. -/
theorem updateBalance_db (s : St) (p : String) (v : Int) (q : String) :
    (updateBalance s p v).db q = if q == p then v else s.db q := rfl

/-- Reading a balance never changes any database balance (the MeTTa re-sync
writes back the value it just read). -/
theorem getUserBalance_db (s : St) (p q : String) :
    (getUserBalance s p).2.db q = s.db q := by
  unfold getUserBalance
  cases s.metta p with
  | none => rfl
  | some mb =>
      dsimp only
      split
      · rw [updateBalance_db]
        split
        · next h => rw [show q = p from by simpa using h]; rfl
        · rfl
      · rfl

/-- Pointwise database view of `dbAdd`. -/
theorem dbAdd_db (s : St) (p : String) (d : Int) (q : String) :
    (dbAdd s p d).db q = if q == p then max (s.db p + d) 0 else s.db q := rfl

/-- The ledger-layer amount policy is exactly the 1-sat floor together with
the 1,000,000-sat ceiling. -/
theorem validateAmount_ok (a : Int) :
    (validateAmount a).1 = true ↔ 1 ≤ a ∧ a ≤ 1000000 := by
  unfold validateAmount
  split
  · next h => simp; omega
  · split
    · next h => simp; omega
    · next h1 h2 => simp; omega

/-- A cleared session id no longer resolves to a session. -/
theorem lookupSession_erase (ss : Sessions) (sid : String) :
    lookupSession (eraseSession ss sid) sid = none := by
  have hfind : List.find? (fun kv => kv.1 == sid)
      (List.filter (fun kv => kv.1 != sid) ss) = none := by
    rw [List.find?_eq_none]
    intro x hx
    have hmem := List.of_mem_filter hx
    simp only [bne_iff_ne, ne_eq] at hmem
    simp [hmem]
  show (List.find? (fun kv => kv.1 == sid)
      (List.filter (fun kv => kv.1 != sid) ss)).map Prod.snd = none
  rw [hfind]
  rfl

/-- Reading a balance never changes the pending list. -/
theorem getUserBalance_pending (s : St) (p : String) :
    (getUserBalance s p).2.pending = s.pending := by
  unfold getUserBalance
  cases s.metta p with
  | none => rfl
  | some mb =>
      dsimp only
      split <;> rfl

/-- Reading a balance never changes the transaction log. -/
theorem getUserBalance_txLog (s : St) (p : String) :
    (getUserBalance s p).2.txLog = s.txLog := by
  unfold getUserBalance
  cases s.metta p with
  | none => rfl
  | some mb =>
      dsimp only
      split <;> rfl

/-- If the invoice-id filter of a pending list is the singleton `[r]`, the
first invoice-id match is `r`. -/
theorem find?_of_filter_singleton (l : List PendingRec) (r : PendingRec)
    (h : l.filter (fun x => x.invoiceId == r.invoiceId) = [r]) :
    l.find? (fun x => x.invoiceId == r.invoiceId) = some r := by
  induction l with
  | nil => simp at h
  | cons a t ih =>
      by_cases ha : (a.invoiceId == r.invoiceId) = true
      · simp only [List.filter_cons, List.find?_cons, ha, if_true] at h ⊢
        simp at h
        simp [h.1]
      · simp only [List.filter_cons, List.find?_cons, ha, if_false] at h ⊢
        simp only [Bool.false_eq_true, if_false] at h ⊢
        exact ih h

/-- Removing the reconciled record leaves no record with its invoice id. -/
theorem filter_removePending_nil (l : List PendingRec) (r : PendingRec)
    (h : l.filter (fun x => x.invoiceId == r.invoiceId) = [r]) :
    (removePendingFirst r.phone r.invoiceId r.kes r.sats l).filter
      (fun x => x.invoiceId == r.invoiceId) = [] := by
  induction l with
  | nil => simp at h
  | cons a t ih =>
      unfold removePendingFirst
      by_cases hm : (a.phone == r.phone && a.invoiceId == r.invoiceId &&
          a.kes == r.kes && a.sats == r.sats) = true
      · rw [if_pos hm]
        have hinv : (a.invoiceId == r.invoiceId) = true := by
          simp only [Bool.and_eq_true] at hm
          exact hm.1.1.2
        simp only [List.filter_cons, hinv, if_true] at h
        simp at h
        refine List.filter_eq_nil_iff.mpr ?_
        intro x hx
        simpa using h.2 x hx
      · rw [if_neg hm]
        by_cases hinv : (a.invoiceId == r.invoiceId) = true
        · simp only [List.filter_cons, hinv, if_true] at h
          simp at h
          exfalso
          apply hm
          rw [h.1]
          simp
        · simp only [List.filter_cons, hinv, Bool.false_eq_true, if_false] at h ⊢
          exact ih h

/-- A predicate that filters a list to `[]` finds nothing in it. -/
theorem find?_none_of_filter_nil (l : List PendingRec) (p : PendingRec → Bool)
    (h : l.filter p = []) : l.find? p = none := by
  rw [List.find?_eq_none]
  intro x hx
  have := List.filter_eq_nil_iff.mp h x hx
  simpa using this

/-- The first match in `l ++ [a]` is `a` when `l` has no match and `a`
matches. -/
theorem find?_append_singleton (l : List PendingRec) (a : PendingRec)
    (p : PendingRec → Bool) (hl : l.filter p = []) (ha : p a = true) :
    (l ++ [a]).find? p = some a := by
  induction l with
  | nil => simp [List.find?, ha]
  | cons b t ih =>
      by_cases hb : p b = true
      · simp only [List.filter_cons, hb, if_true] at hl
        simp at hl
      · simp only [List.filter_cons, hb, Bool.false_eq_true, if_false] at hl
        rw [List.cons_append]
        simp only [List.find?_cons, hb]
        exact ih hl

/-- `bitsAux` of zero is zero at any fuel. -/
theorem bitsAux_zero (fuel : Nat) : bitsAux fuel 0 = 0 := by
  cases fuel <;> rfl

/-- Upper correctness of `bitsAux`: with enough fuel, `n < 2 ^ bitsAux fuel n`. -/
theorem bitsAux_lt : ∀ fuel n, n < 2 ^ fuel → n < 2 ^ bitsAux fuel n := by
  intro fuel
  induction fuel with
  | zero =>
      intro n h
      simp only [pow_zero, Nat.lt_one_iff] at h
      subst h
      simp [bitsAux_zero]
  | succ k ih =>
      intro n h
      by_cases h0 : n = 0
      · subst h0
        simp [bitsAux_zero]
      · have h2 : n / 2 < 2 ^ k := by
          rw [pow_succ] at h
          omega
        have h3 := ih (n / 2) h2
        simp only [bitsAux, h0, if_false]
        rw [pow_succ]
        omega

/-- Lower correctness of `bitsAux`: a positive `n` has at least
`bitsAux fuel n` bits. -/
theorem bitsAux_pos_le : ∀ fuel n, 1 ≤ n → 2 ^ (bitsAux fuel n - 1) ≤ n := by
  intro fuel
  induction fuel with
  | zero =>
      intro n h1
      simpa [bitsAux] using h1
  | succ k ih =>
      intro n h1
      have h0 : ¬ n = 0 := by omega
      simp only [bitsAux, h0, if_false]
      by_cases hn2 : n / 2 = 0
      · rw [hn2, bitsAux_zero]
        simpa using h1
      · have h4 := ih (n / 2) (by omega)
        rcases Nat.eq_zero_or_pos (bitsAux k (n / 2)) with hb | hb
        · rw [hb]
          simpa using h1
        · have he : bitsAux k (n / 2) + 1 - 1 = (bitsAux k (n / 2) - 1) + 1 := by omega
          rw [he, pow_succ]
          omega

/-- `bits` is a true strict upper bound on `n` below the fuel limit. -/
theorem bits_lt (n : Nat) (h : n < 2 ^ 200) : n < 2 ^ bits n := bitsAux_lt 200 n h

/-- `bits` of a positive number is a lower bound witness. -/
theorem bits_pos_le (n : Nat) (h : 1 ≤ n) : 2 ^ (bits n - 1) ≤ n := bitsAux_pos_le 200 n h

/-- Monotone consequence: `n < 2 ^ k` bounds `bits n` by `k`. -/
theorem bits_le_of_lt (n k : Nat) (h : n < 2 ^ k) : bits n ≤ k := by
  by_contra hc
  push_neg at hc
  rcases Nat.eq_zero_or_pos n with h0 | h0
  · subst h0
    simp [bits, bitsAux_zero] at hc
  · have h2 := bits_pos_le n h0
    have h3 : (2 : Nat) ^ k ≤ 2 ^ (bits n - 1) := Nat.pow_le_pow_right (by norm_num) (by omega)
    omega

/-- Monotone consequence: `2 ^ k ≤ n` forces more than `k` bits. -/
theorem le_bits_of_le (n k : Nat) (hn : n < 2 ^ 200) (h : 2 ^ k ≤ n) : k < bits n := by
  have h1 := bits_lt n hn
  have h2 : (2 : Nat) ^ k < 2 ^ bits n := lt_of_le_of_lt h h1
  exact (Nat.pow_lt_pow_iff_right (by norm_num)).mp h2

/-- `roundMant` rounds up by at most one, and only past the halfway point. -/
theorem roundMant_bound (q r hh : Nat) :
    q ≤ roundMant q r hh ∧ roundMant q r hh ≤ q + 1 ∧
      (roundMant q r hh = q + 1 → hh ≤ r) := by
  unfold roundMant
  split_ifs <;> omega

/-- The rounded mantissa stays within half an ulp above the exact value:
`2 ^ (s + 1) * round ≤ 2 * m + 2 ^ s`. -/
theorem roundMant_mul_le (m s : Nat) (hs : 1 ≤ s) :
    2 ^ (s + 1) * roundMant (m / 2 ^ s) (m % 2 ^ s) (2 ^ (s - 1)) ≤ 2 * m + 2 ^ s := by
  obtain ⟨hle, hub, him⟩ := roundMant_bound (m / 2 ^ s) (m % 2 ^ s) (2 ^ (s - 1))
  have hq : 2 ^ s * (m / 2 ^ s) + m % 2 ^ s = m := Nat.div_add_mod _ _
  have h2s : (2 : Nat) ^ s = 2 * 2 ^ (s - 1) := by
    rw [← pow_succ']
    congr 1
    omega
  have h2s1 : (2 : Nat) ^ (s + 1) = 2 * 2 ^ s := pow_succ' 2 s
  rcases Nat.lt_or_ge (roundMant (m / 2 ^ s) (m % 2 ^ s) (2 ^ (s - 1))) (m / 2 ^ s + 1)
    with hcase | hcase
  · have hq2 : roundMant (m / 2 ^ s) (m % 2 ^ s) (2 ^ (s - 1)) ≤ m / 2 ^ s := by omega
    calc 2 ^ (s + 1) * roundMant (m / 2 ^ s) (m % 2 ^ s) (2 ^ (s - 1))
        ≤ 2 ^ (s + 1) * (m / 2 ^ s) := Nat.mul_le_mul_left _ hq2
      _ = 2 * (2 ^ s * (m / 2 ^ s)) := by rw [h2s1]; ring
      _ ≤ 2 * m + 2 ^ s := by omega
  · have heq : roundMant (m / 2 ^ s) (m % 2 ^ s) (2 ^ (s - 1)) = m / 2 ^ s + 1 := by omega
    have hrr : 2 ^ (s - 1) ≤ m % 2 ^ s := him heq
    calc 2 ^ (s + 1) * roundMant (m / 2 ^ s) (m % 2 ^ s) (2 ^ (s - 1))
        = 2 * (2 ^ s * (m / 2 ^ s)) + 2 * 2 ^ s := by rw [heq, h2s1]; ring
      _ ≤ 2 * m + 2 ^ s := by omega

/-- On every amount up to 10^14 KES the double pipeline
`int(float(f) * (1000/150))` agrees with the exact truncated rational
`floor(f * 1000 / 150)` of the flow embeddings. -/
theorem pyKesToSats64_eq (f : Nat) (hf : f ≤ 100000000000000) :
    pyKesToSats64 f = f * 1000 / 150 := by
  rcases Nat.lt_or_ge f 2 with hsmall | h2
  · interval_cases f <;> decide
  · have hf53 : f < 2 ^ 53 := by omega
    have hof : float64OfNat f = ⟨f, 0⟩ := by
      unfold float64OfNat roundDyadic
      rw [if_pos (bits_le_of_lt f 53 hf53)]
    have hP : (⟨f * 7505999378950827, 0 + -50⟩ : Dyadic) =
        ⟨f * 7505999378950827, -50⟩ := by norm_num
    set P := f * 7505999378950827 with hPdef
    have hPlow : 2 ^ 53 ≤ P := by
      calc (2 : Nat) ^ 53 ≤ 2 * 7505999378950827 := by norm_num
        _ ≤ P := by rw [hPdef]; exact Nat.mul_le_mul_right _ h2
    have hPhigh : P < 2 ^ 100 := by
      calc P ≤ 100000000000000 * 7505999378950827 := Nat.mul_le_mul_right _ hf
        _ < 2 ^ 100 := by norm_num
    have hb54 : 54 ≤ bits P := le_bits_of_le P 53 (lt_trans hPhigh (by norm_num)) hPlow
    have hb100 : bits P ≤ 100 := bits_le_of_lt P 100 hPhigh
    set s := bits P - 53 with hsdef
    have hs1 : 1 ≤ s := by omega
    have hs47 : s ≤ 47 := by omega
    have hbig : ¬ bits P ≤ 53 := by omega
    set Q2 := roundMant (P / 2 ^ s) (P % 2 ^ s) (2 ^ (s - 1)) with hQ2def
    have hrd : roundDyadic ⟨P, -50⟩ = ⟨Q2, -50 + (s : Int)⟩ := by
      unfold roundDyadic
      rw [if_neg hbig]
    have hpipe : pyKesToSats64 f = Q2 / 2 ^ (50 - s) := by
      unfold pyKesToSats64
      rw [hof]
      unfold float64Mul rate64
      dsimp only
      rw [hP, hrd]
      unfold pyIntOfDyadic
      dsimp only
      rw [if_neg (by omega)]
      congr 1
      congr 1
      omega
    rw [hpipe]
    set t := f * 1000 / 150 with htdef
    obtain ⟨t3, ht, ht3⟩ : ∃ t3, 20 * f = 3 * t + t3 ∧ t3 < 3 :=
      ⟨20 * f % 3, by omega, by omega⟩
    have h3P : 3 * P = 20 * f * 1125899906842624 + f := by rw [hPdef]; ring
    have hKpos : 0 < (2 : Nat) ^ (50 - s) := pow_pos (by norm_num) _
    have hKS : (2 : Nat) ^ (50 - s) * 2 ^ s = 2 ^ 50 := by
      rw [← pow_add]
      congr 1
      omega
    have htP : t * 1125899906842624 ≤ P := by omega
    have hlow : t * 2 ^ (50 - s) ≤ Q2 := by
      have hdiv : t * 2 ^ (50 - s) ≤ P / 2 ^ s := by
        rw [Nat.le_div_iff_mul_le (pow_pos (by norm_num) s)]
        calc t * 2 ^ (50 - s) * 2 ^ s = t * (2 ^ (50 - s) * 2 ^ s) := by ring
          _ = t * 2 ^ 50 := by rw [hKS]
          _ = t * 1125899906842624 := by norm_num
          _ ≤ P := htP
      exact le_trans hdiv (roundMant_bound (P / 2 ^ s) (P % 2 ^ s) (2 ^ (s - 1))).1
    have hsL : (2 : Nat) ^ s ≤ 140737488355328 := by
      calc (2 : Nat) ^ s ≤ 2 ^ 47 := Nat.pow_le_pow_right (by norm_num) hs47
        _ = 140737488355328 := by norm_num
    have hcomp : 2 ^ (s + 1) * Q2 ≤ 2 * P + 2 ^ s := roundMant_mul_le P s hs1
    have hup2 : 2 * P + 2 ^ s < (t + 1) * 2251799813685248 := by omega
    have hupp : Q2 < (t + 1) * 2 ^ (50 - s) := by
      have hsplit : (t + 1) * 2251799813685248 = 2 ^ (s + 1) * ((t + 1) * 2 ^ (50 - s)) := by
        calc (t + 1) * 2251799813685248 = (t + 1) * 2 ^ 51 := by norm_num
          _ = (t + 1) * (2 ^ (50 - s) * 2 ^ (s + 1)) := by
              rw [← pow_add]
              congr 2
              omega
          _ = 2 ^ (s + 1) * ((t + 1) * 2 ^ (50 - s)) := by ring
      have hm : 2 ^ (s + 1) * Q2 < 2 ^ (s + 1) * ((t + 1) * 2 ^ (50 - s)) := by
        rw [← hsplit]
        exact lt_of_le_of_lt hcomp hup2
      exact Nat.lt_of_mul_lt_mul_left hm
    have hfin : Q2 / 2 ^ (50 - s) < t + 1 := (Nat.div_lt_iff_lt_mul hKpos).mpr hupp
    have hfin2 : t ≤ Q2 / 2 ^ (50 - s) := (Nat.le_div_iff_mul_le hKpos).mpr hlow
    omega

/-- The reverse double conversion `int(float(n) * (150/1000))` never exceeds
`f` when `3 * n ≤ 20 * f`, for sats amounts up to 7·10^14. -/
theorem pySatsToKes64_le (n f : Nat) (h3 : 3 * n ≤ 20 * f) (hn : n ≤ 700000000000000) :
    pySatsToKes64 n ≤ f := by
  rcases Nat.eq_zero_or_pos n with h0 | h1
  · subst h0
    have hz : pySatsToKes64 0 = 0 := by decide
    omega
  · have hn53 : n < 2 ^ 53 := by omega
    have hof : float64OfNat n = ⟨n, 0⟩ := by
      unfold float64OfNat roundDyadic
      rw [if_pos (bits_le_of_lt n 53 hn53)]
    have hP : (⟨n * 5404319552844595, 0 + -55⟩ : Dyadic) =
        ⟨n * 5404319552844595, -55⟩ := by norm_num
    set P := n * 5404319552844595 with hPdef
    have h20P : 20 * P + 4 * n = 3 * n * 36028797018963968 := by rw [hPdef]; ring
    have hPle : P ≤ f * 36028797018963968 := by omega
    have hpipe0 : pySatsToKes64 n = pyIntOfDyadic (roundDyadic ⟨P, -55⟩) := by
      unfold pySatsToKes64
      rw [hof]
      unfold float64Mul rate064
      dsimp only
      rw [hP]
    by_cases hb : bits P ≤ 53
    · have hrd : roundDyadic ⟨P, -55⟩ = ⟨P, -55⟩ := by
        unfold roundDyadic
        rw [if_pos hb]
      rw [hpipe0, hrd]
      unfold pyIntOfDyadic
      dsimp only
      rw [if_neg (by omega)]
      have hen : ((-(-55 : Int)).toNat) = 55 := by omega
      rw [hen]
      calc P / 2 ^ 55 ≤ f * 36028797018963968 / 2 ^ 55 := Nat.div_le_div_right hPle
        _ = f := by norm_num
    · push_neg at hb
      have hb54 : 54 ≤ bits P := hb
      have hPhigh : P < 2 ^ 102 := by
        calc P ≤ 700000000000000 * 5404319552844595 := Nat.mul_le_mul_right _ hn
          _ < 2 ^ 102 := by norm_num
      have hb102 : bits P ≤ 102 := bits_le_of_lt P 102 hPhigh
      set s := bits P - 53 with hsdef
      have hs1 : 1 ≤ s := by omega
      have hs49 : s ≤ 49 := by omega
      set Q2 := roundMant (P / 2 ^ s) (P % 2 ^ s) (2 ^ (s - 1)) with hQ2def
      have hbig : ¬ bits P ≤ 53 := by omega
      have hrd : roundDyadic ⟨P, -55⟩ = ⟨Q2, -55 + (s : Int)⟩ := by
        unfold roundDyadic
        rw [if_neg hbig]
      rw [hpipe0, hrd]
      unfold pyIntOfDyadic
      dsimp only
      rw [if_neg (by omega)]
      have hen : ((-((-55 : Int) + (s : Int))).toNat) = 55 - s := by omega
      rw [hen]
      have hsL : (2 : Nat) ^ s ≤ 562949953421312 := by
        calc (2 : Nat) ^ s ≤ 2 ^ 49 := Nat.pow_le_pow_right (by norm_num) hs49
          _ = 562949953421312 := by norm_num
      have hcomp : 2 ^ (s + 1) * Q2 ≤ 2 * P + 2 ^ s := roundMant_mul_le P s hs1
      have hup2 : 2 * P + 2 ^ s < (f + 1) * 72057594037927936 := by omega
      have hupp : Q2 < (f + 1) * 2 ^ (55 - s) := by
        have hsplit : (f + 1) * 72057594037927936 = 2 ^ (s + 1) * ((f + 1) * 2 ^ (55 - s)) := by
          calc (f + 1) * 72057594037927936 = (f + 1) * 2 ^ 56 := by norm_num
            _ = (f + 1) * (2 ^ (55 - s) * 2 ^ (s + 1)) := by
                rw [← pow_add]
                congr 2
                omega
            _ = 2 ^ (s + 1) * ((f + 1) * 2 ^ (55 - s)) := by ring
        have hm : 2 ^ (s + 1) * Q2 < 2 ^ (s + 1) * ((f + 1) * 2 ^ (55 - s)) := by
          rw [← hsplit]
          exact lt_of_le_of_lt hcomp hup2
        exact Nat.lt_of_mul_lt_mul_left hm
      have hfin : Q2 / 2 ^ (55 - s) < f + 1 :=
        (Nat.div_lt_iff_lt_mul (pow_pos (by norm_num) _)).mpr hupp
      omega

/-- Certifies the hard-coded mantissa of `rate64`: `3 * m = 20 * 2^50 + 1`
puts `7505999378950827 * 2 ^ (-50)` within a third of a grid step of 20/3,
and every other mantissa at that exponent is strictly farther away. -/
theorem rate64_nearest (m : Nat) :
    3 * rate64.m = 20 * 2 ^ 50 + 1 ∧
    (m = rate64.m ∨ 1 < (3 * (m : Int) - 20 * 2 ^ 50).natAbs) := by
  constructor
  · decide
  · show m = 7505999378950827 ∨ _
    omega

/-- Certifies the hard-coded mantissa of `rate064`: `20 * m + 4 = 3 * 2^55`
puts `5404319552844595 * 2 ^ (-55)` within a fifth of a grid step of 3/20,
and every other mantissa at that exponent is strictly farther away. -/
theorem rate064_nearest (m : Nat) :
    20 * rate064.m + 4 = 3 * 2 ^ 55 ∧
    (m = rate064.m ∨ 4 < (20 * (m : Int) - 3 * 2 ^ 55).natAbs) := by
  constructor
  · decide
  · show m = 5404319552844595 ∨ _
    omega

/-! ## Claim theorems -/

/-- C1 (code bug in `send_btc`): for a valid send of 10 sats from a sender
holding 100 sats to a recipient holding 0, the operation reports success,
appends exactly one transaction record and debits the sender by exactly 10 —
but the recipient balance ends at 20, not 10: `pay_invoice` already credits
the recipient, and `send_btc` then runs
`update_balance(to, get_user_balance(to) + amount)` on the already-credited
balance, crediting the amount a second time. -/
theorem c1_send_credits_recipient_twice :
    (sendBtc c1St "+254700000001" "+254700000002" 10 "inv1" "t0").1.ok = true ∧
    (sendBtc c1St "+254700000001" "+254700000002" 10 "inv1" "t0").2.db "+254700000001" = 90 ∧
    (sendBtc c1St "+254700000001" "+254700000002" 10 "inv1" "t0").2.db "+254700000002" = 20 ∧
    (sendBtc c1St "+254700000001" "+254700000002" 10 "inv1" "t0").2.db "+254700000002" ≠
      c1St.db "+254700000002" + 10 ∧
    (sendBtc c1St "+254700000001" "+254700000002" 10 "inv1" "t0").2.txLog.length = 1 := by
  decide

set_option maxRecDepth 4000 in
/-- C2 counterexample: the conversion sites compute `int(f * (1000 / 150))`
in IEEE-754 double arithmetic, and at the fiat amount 10^15 (a 16-digit
input, which the top-up digit filter accepts unchanged — there is no upper
bound on the amount) the double pipeline yields 6666666666666667 while
`floor(f * 1000 / 150)` is 6666666666666666: the claimed rule does not hold
for every non-negative integer fiat amount. -/
theorem c2_counterexample_large_topup :
    pyKesToSats64 1000000000000000 = 6666666666666667 ∧
    1000000000000000 * 1000 / 150 = 6666666666666666 ∧
    pyKesToSats64 1000000000000000 ≠ 1000000000000000 * 1000 / 150 ∧
    filterDigits "1000000000000000" = "1000000000000000" := by
  refine ⟨by decide, by decide, by decide, by decide⟩

/-- C2 (amended): for every fiat amount up to 10^14 KES — far above the
~3·10^14 threshold is where the double arithmetic departs from the exact
rule — the conversion used by top-up, withdraw and airtime computes, in the
source's own IEEE-754 double arithmetic, exactly `floor(f * 1000 / 150)`
(so 10 KES give 66 sats); it coincides with the exact-rational `kesToSats`
used by the flow embeddings, the reverse double conversion never overshoots
(`fiat(sats(f)) ≤ f`), `convert_amount` computes the same rule in both
directions, and `sats(10) = 66`. -/
theorem c2_amended_conversion_bounded (f : Nat) (hf : f ≤ 100000000000000) :
    pyKesToSats64 f = f * 1000 / 150 ∧
    pyKesToSats64 f = kesToSats f ∧
    pySatsToKes64 (pyKesToSats64 f) ≤ f ∧
    pyConvertAmount64 f "KES" "sats" = pyKesToSats64 f ∧
    pyConvertAmount64 f "sats" "KES" = pySatsToKes64 f ∧
    pyKesToSats64 10 = 66 := by
  have h1 := pyKesToSats64_eq f hf
  refine ⟨h1, ?_, ?_, ?_, ?_, by decide⟩
  · rw [h1]; rfl
  · rw [h1]
    apply pySatsToKes64_le
    · omega
    · omega
  · unfold pyConvertAmount64
    rw [if_pos (by decide)]
  · unfold pyConvertAmount64
    rw [if_neg (by decide), if_pos (by decide)]

/-- C2 amended witness: the bounded conversion rule instantiated at the
10-KES top-up amount of the specification scenario. -/
theorem c2_amended_witness :
    (10 : Nat) ≤ 100000000000000 ∧
    (pyKesToSats64 10 = 10 * 1000 / 150 ∧
     pyKesToSats64 10 = kesToSats 10 ∧
     pySatsToKes64 (pyKesToSats64 10) ≤ 10 ∧
     pyConvertAmount64 10 "KES" "sats" = pyKesToSats64 10 ∧
     pyConvertAmount64 10 "sats" "KES" = pySatsToKes64 10 ∧
     pyKesToSats64 10 = 66) :=
  ⟨by norm_num, c2_amended_conversion_bounded 10 (by norm_num)⟩

/-- C6 (code bug in `handle_user_input`): from a fresh `main_menu` session,
the combined request `"1*+254712345678"` is routed to the natural-language
layer (`should_use_ai` is true for any text that is not a bare digit) and
the session stays in `main_menu`, while the same steps sent as two requests
land in the `send_btc_amount` state — the two are not equivalent, and the
positional replay branch of `handle_user_input` is unreachable. -/
theorem c6_combined_request_not_equivalent :
    engineIsAi (handleUserInputBody c6Sessions "s1" "+254715586044"
      ["1", "+254712345678"] false c6Env stZero) = true ∧
    sessionStateAfter (handleUserInputBody c6Sessions "s1" "+254715586044"
      ["1", "+254712345678"] false c6Env stZero) "s1" = "main_menu" ∧
    engineResp (handleUserInputBody c6Sessions "s1" "+254715586044" ["1"] false c6Env stZero) =
      some "CON Send BTC\nEnter recipient phone number:" ∧
    engineResp (handleUserInputBody
      (engineSessions (handleUserInputBody c6Sessions "s1" "+254715586044" ["1"] false c6Env stZero))
      "s1" "+254715586044" ["1", "+254712345678"] false c6Env stZero) =
      some "CON Send BTC to +254712345678\nEnter amount in sats:" ∧
    sessionStateAfter (handleUserInputBody
      (engineSessions (handleUserInputBody c6Sessions "s1" "+254715586044" ["1"] false c6Env stZero))
      "s1" "+254715586044" ["1", "+254712345678"] false c6Env stZero) "s1" = "send_btc_amount" ∧
    "main_menu" ≠ "send_btc_amount" := by
  decide

/-- C9: whenever the dispatched flow handler raises, the engine shell
returns the generic terminal message and deletes the stored session, so the
session id no longer resolves to any session state. -/
theorem c9_handler_exception_clears_session (ss : Sessions) (sid e : String) :
    handleUserInputCatch ss sid (.error e) =
      ("END Error processing request. Please try again.", eraseSession ss sid) ∧
    lookupSession (handleUserInputCatch ss sid (.error e)).2 sid = none ∧
    strStarts (handleUserInputCatch ss sid (.error e)).1 "END" = true := by
  exact ⟨rfl, lookupSession_erase ss sid, rfl⟩

/-- Evaluation of `complete_mpesa_topup` on a gateway-complete payment whose
pending record is found. -/
theorem completeMpesaTopup_complete (s : St) (invId mref ts : String) (r : PendingRec)
    (hfind : s.pending.find? (fun x => x.invoiceId == invId) = some r) :
    completeMpesaTopup s invId "COMPLETE" mref ts =
      (⟨true, "Payment confirmed! " ++ toString r.sats ++
              " sats added to your balance.\nM-Pesa Ref: " ++ mref ++
              "\nNew balance: " ++ toString ((getUserBalance s r.phone).1 + r.sats) ++
              " sats"⟩,
       { (updateBalance (getUserBalance s r.phone).2 r.phone
            ((getUserBalance s r.phone).1 + r.sats)) with
         txLog := (getUserBalance s r.phone).2.txLog ++
                  [TxAtom.mk "M-Pesa" r.phone r.sats "TopUp" ts],
         pending := removePendingFirst r.phone invId r.kes r.sats
                    (getUserBalance s r.phone).2.pending }) := by
  unfold completeMpesaTopup
  rw [hfind]
  rfl

/-- Evaluation of `complete_mpesa_topup` on a gateway-complete payment with
no matching pending record: failure, nothing mutated. -/
theorem completeMpesaTopup_noMatch (s : St) (invId mref ts : String)
    (hfind : s.pending.find? (fun x => x.invoiceId == invId) = none) :
    completeMpesaTopup s invId "COMPLETE" mref ts =
      (⟨false, "Payment completed but no matching pending transaction found"⟩, s) := by
  unfold completeMpesaTopup
  rw [hfind]
  rfl

/-- C3: reconciling the same provider invoice id twice with the gateway
reporting COMPLETE both times credits the stored sats exactly once — the
first call succeeds, credits the stored phone by the stored sats, appends
one transaction and removes the pending record; the second call finds no
pending record, reports failure and performs no mutation at all. -/
theorem c3_reconcile_twice_credits_once (s : St) (r : PendingRec)
    (h : s.pending.filter (fun x => x.invoiceId == r.invoiceId) = [r]) :
    (completeMpesaTopup s r.invoiceId "COMPLETE" "ref" "t1").1.ok = true ∧
    (completeMpesaTopup s r.invoiceId "COMPLETE" "ref" "t1").2.db r.phone
      = s.db r.phone + r.sats ∧
    (completeMpesaTopup s r.invoiceId "COMPLETE" "ref" "t1").2.txLog.length
      = s.txLog.length + 1 ∧
    (completeMpesaTopup s r.invoiceId "COMPLETE" "ref" "t1").2.pending.find?
      (fun x => x.invoiceId == r.invoiceId) = none ∧
    (completeMpesaTopup (completeMpesaTopup s r.invoiceId "COMPLETE" "ref" "t1").2
      r.invoiceId "COMPLETE" "ref" "t2").1.ok = false ∧
    (completeMpesaTopup (completeMpesaTopup s r.invoiceId "COMPLETE" "ref" "t1").2
      r.invoiceId "COMPLETE" "ref" "t2").2
      = (completeMpesaTopup s r.invoiceId "COMPLETE" "ref" "t1").2 := by
  have hfind := find?_of_filter_singleton s.pending r h
  have hrm : (removePendingFirst r.phone r.invoiceId r.kes r.sats s.pending).find?
      (fun x => x.invoiceId == r.invoiceId) = none :=
    find?_none_of_filter_nil _ _ (filter_removePending_nil s.pending r h)
  have e := completeMpesaTopup_complete s r.invoiceId "ref" "t1" r hfind
  have hp2 : (completeMpesaTopup s r.invoiceId "COMPLETE" "ref" "t1").2.pending.find?
      (fun x => x.invoiceId == r.invoiceId) = none := by
    rw [e]
    dsimp only
    rw [getUserBalance_pending]
    exact hrm
  have e2 := completeMpesaTopup_noMatch
    (completeMpesaTopup s r.invoiceId "COMPLETE" "ref" "t1").2 r.invoiceId "ref" "t2" hp2
  refine ⟨by rw [e], ?_, ?_, hp2, by rw [e2], by rw [e2]⟩
  · rw [e]
    dsimp only
    rw [updateBalance_db]
    simp only [beq_self_eq_true, if_true]
    rw [getUserBalance_fst]
  · rw [e]
    dsimp only
    rw [List.length_append, getUserBalance_txLog]
    rfl

/-- C3 witness: a concrete state holding exactly one pending top-up record. -/
theorem c3_witness :
    c3St.pending.filter (fun x => x.invoiceId == c3Pending.invoiceId) = [c3Pending] ∧
    ((completeMpesaTopup c3St c3Pending.invoiceId "COMPLETE" "ref" "t1").1.ok = true ∧
     (completeMpesaTopup c3St c3Pending.invoiceId "COMPLETE" "ref" "t1").2.db c3Pending.phone
       = c3St.db c3Pending.phone + c3Pending.sats ∧
     (completeMpesaTopup c3St c3Pending.invoiceId "COMPLETE" "ref" "t1").2.txLog.length
       = c3St.txLog.length + 1 ∧
     (completeMpesaTopup c3St c3Pending.invoiceId "COMPLETE" "ref" "t1").2.pending.find?
       (fun x => x.invoiceId == c3Pending.invoiceId) = none ∧
     (completeMpesaTopup (completeMpesaTopup c3St c3Pending.invoiceId "COMPLETE" "ref" "t1").2
       c3Pending.invoiceId "COMPLETE" "ref" "t2").1.ok = false ∧
     (completeMpesaTopup (completeMpesaTopup c3St c3Pending.invoiceId "COMPLETE" "ref" "t1").2
       c3Pending.invoiceId "COMPLETE" "ref" "t2").2
       = (completeMpesaTopup c3St c3Pending.invoiceId "COMPLETE" "ref" "t1").2) :=
  ⟨by decide, c3_reconcile_twice_credits_once c3St c3Pending (by decide)⟩

/-- Evaluation of `topup_via_mpesa` on a valid phone, an amount at or above
the 10-KES floor and a successful STK push. -/
theorem topupViaMpesa_push (s : St) (phone : String) (kes : Int) (invId ts : String)
    (hval : validatePhoneNumber (normalizePhoneNumber phone) = true)
    (hmin : 10 ≤ kes) :
    topupViaMpesa s phone kes (.push invId) ts =
      (⟨true, "M-Pesa payment request sent to " ++ normalizePhoneNumber phone ++
              "\nAmount: " ++ toString kes ++ " KES (" ++ toString (kesToSatsI kes) ++
              " sats)\nComplete payment on your phone to receive Bitcoin"⟩,
       { s with pending := s.pending ++
           [PendingRec.mk (normalizePhoneNumber phone) invId kes (kesToSatsI kes) ts] }) := by
  unfold topupViaMpesa
  rw [if_neg (by simp [hval]), if_neg (by omega)]

/-- C4: initiating a top-up of `kes` KES (with a valid phone, a fresh
provider invoice id and a successful STK push) appends exactly one pending
record carrying `sats_equivalent = kesToSatsI kes` and leaves every balance
unchanged; a later reconciliation that observes any gateway state other than
COMPLETE still mutates no balance, while reconciliation on COMPLETE credits
the user by exactly the stored sats amount. -/
theorem c4_topup_pending_then_reconcile (s : St) (phone invId mref ts ts2 gw : String)
    (kes : Int)
    (hval : validatePhoneNumber (normalizePhoneNumber phone) = true)
    (hmin : 10 ≤ kes)
    (hfresh : s.pending.filter (fun x => x.invoiceId == invId) = []) :
    (topupViaMpesa s phone kes (.push invId) ts).1.ok = true ∧
    (topupViaMpesa s phone kes (.push invId) ts).2.pending =
      s.pending ++ [PendingRec.mk (normalizePhoneNumber phone) invId kes (kesToSatsI kes) ts] ∧
    (topupViaMpesa s phone kes (.push invId) ts).2.db = s.db ∧
    (gw ≠ "COMPLETE" →
      (completeMpesaTopup (topupViaMpesa s phone kes (.push invId) ts).2 invId gw mref ts2).1.ok
        = false ∧
      (completeMpesaTopup (topupViaMpesa s phone kes (.push invId) ts).2 invId gw mref ts2).2.db
        = (topupViaMpesa s phone kes (.push invId) ts).2.db) ∧
    (completeMpesaTopup (topupViaMpesa s phone kes (.push invId) ts).2 invId "COMPLETE" mref
      ts2).2.db (normalizePhoneNumber phone)
      = s.db (normalizePhoneNumber phone) + kesToSatsI kes := by
  have e := topupViaMpesa_push s phone kes invId ts hval hmin
  have hfind : (topupViaMpesa s phone kes (.push invId) ts).2.pending.find?
      (fun x => x.invoiceId == invId) =
      some (PendingRec.mk (normalizePhoneNumber phone) invId kes (kesToSatsI kes) ts) := by
    rw [e]
    exact find?_append_singleton _ _ _ hfresh (by simp)
  refine ⟨by rw [e], by rw [e], by rw [e], ?_, ?_⟩
  · intro hgw
    have hb : (gw == "COMPLETE") = false := by simpa using hgw
    unfold completeMpesaTopup
    rw [hb]
    simp only [Bool.false_eq_true, if_false]
    split
    · exact ⟨rfl, rfl⟩
    · exact ⟨rfl, rfl⟩
  · have e2 := completeMpesaTopup_complete (topupViaMpesa s phone kes (.push invId) ts).2
      invId mref ts2 (PendingRec.mk (normalizePhoneNumber phone) invId kes (kesToSatsI kes) ts)
      hfind
    rw [e2]
    dsimp only
    rw [updateBalance_db]
    simp only [beq_self_eq_true, if_true]
    rw [getUserBalance_fst, e]

/-- C4 witness: 10 KES top-up from a fresh zero state creates the pending
record with `sats_equivalent = 66` and reconciliation credits 66. -/
theorem c4_witness :
    validatePhoneNumber (normalizePhoneNumber "0715586044") = true ∧
    (10 : Int) ≤ 10 ∧
    stZero.pending.filter (fun x => x.invoiceId == "inv1") = [] ∧
    kesToSatsI 10 = 66 ∧
    ((topupViaMpesa stZero "0715586044" 10 (.push "inv1") "t0").1.ok = true ∧
     (topupViaMpesa stZero "0715586044" 10 (.push "inv1") "t0").2.pending =
       stZero.pending ++
         [PendingRec.mk (normalizePhoneNumber "0715586044") "inv1" 10 (kesToSatsI 10) "t0"] ∧
     (topupViaMpesa stZero "0715586044" 10 (.push "inv1") "t0").2.db = stZero.db ∧
     ("FAILED" ≠ "COMPLETE" →
       (completeMpesaTopup (topupViaMpesa stZero "0715586044" 10 (.push "inv1") "t0").2
         "inv1" "FAILED" "ref" "t1").1.ok = false ∧
       (completeMpesaTopup (topupViaMpesa stZero "0715586044" 10 (.push "inv1") "t0").2
         "inv1" "FAILED" "ref" "t1").2.db
         = (topupViaMpesa stZero "0715586044" 10 (.push "inv1") "t0").2.db) ∧
     (completeMpesaTopup (topupViaMpesa stZero "0715586044" 10 (.push "inv1") "t0").2
       "inv1" "COMPLETE" "ref" "t1").2.db (normalizePhoneNumber "0715586044")
       = stZero.db (normalizePhoneNumber "0715586044") + kesToSatsI 10) :=
  ⟨by decide, by decide, rfl, by decide,
   c4_topup_pending_then_reconcile stZero "0715586044" "inv1" "ref" "t0" "t1" "FAILED" 10
     (by decide) (by decide) rfl⟩

/-- C7 counterexample: in the `send_btc_amount` flow state, the amount 5
(below the claimed 10-sat flow floor) is *not* re-prompted: the payment
layer runs, the sender is debited to 995 sats and the session ends with a
terminal message. -/
theorem c7_counterexample_amount_5_executes :
    hOutResp (handleSendBtcAmount c7Sess "5" c6Env c7St) =
      "END Sent 5 sats to +254712345678. New balance: 995 sats" ∧
    strStarts (hOutResp (handleSendBtcAmount c7Sess "5" c6Env c7St)) "CON" = false ∧
    (hOutSt (handleSendBtcAmount c7Sess "5" c6Env c7St)).db "+254715586044" = 995 ∧
    hOutCleared (handleSendBtcAmount c7Sess "5" c6Env c7St) = true := by
  decide

/-- C8 counterexample: with an active `topup_mpesa`/`amount` context, the
informational input "what are the fees" is answered with the generic
guidance message, which does not re-display the pending amount prompt (the
context is still preserved and the response is still CON). -/
theorem c8_counterexample_fees_no_reprompt :
    isInformationalRequest "what are the fees" = true ∧
    (handleContextBasedResponse stZero "+254715586044" "what are the fees" c8Ctx
      (.push "mp1") "t0").1 =
      "CON I can help with exchange rates, fees, and instructions.\\n\\nType \x27continue\x27 to resume your transaction or \x270\x27 for main menu." ∧
    pyIn "Enter amount in KES:"
      (handleContextBasedResponse stZero "+254715586044" "what are the fees" c8Ctx
        (.push "mp1") "t0").1 = false ∧
    (handleContextBasedResponse stZero "+254715586044" "what are the fees" c8Ctx
      (.push "mp1") "t0").2.1 = some c8Ctx := by
  decide

/-- C10: in the top-up amount step, any input that is not `back` and not a
rates query is parsed by deleting every non-digit character: inputs with no
digit at all get the invalid-amount re-prompt, inputs whose concatenated
digits are below 10 get the minimum re-prompt, and inputs whose concatenated
digits are at least 10 are accepted as that KES amount and passed to
`topup_via_mpesa`. -/
theorem c10_topup_parses_digit_filter (u : USSDSession) (input : String) (env : Env)
    (s : St) (stk : StkPush)
    (hback : pyLower input ≠ "back")
    (hr1 : pyLower input ≠ "rates?")
    (hr2 : pyLower input ≠ "rates") :
    (filterDigits input = "" →
       handleTopupAmount u input env s =
         .done "CON Invalid amount. Please enter a valid number.\nEnter KES amount (Min: 10 KES):\n\n(Ask \x27rates?\x27 or say \x27back\x27)" u s false) ∧
    (filterDigits input ≠ "" → ((digitsToNat (filterDigits input).data : Nat) : Int) < 10 →
       handleTopupAmount u input env s =
         .done "CON Minimum top-up is 10 KES.\nEnter KES amount (Min: 10 KES):\n\n(Ask \x27rates?\x27 or say \x27back\x27)" u s false) ∧
    (filterDigits input ≠ "" → 10 ≤ ((digitsToNat (filterDigits input).data : Nat) : Int) →
       env.mpesa = .pushed stk →
       handleTopupAmount u input env s =
         .done ("END " ++ (topupViaMpesa s u.phone
             ((digitsToNat (filterDigits input).data : Nat) : Int) stk env.ts).1.msg)
           u (topupViaMpesa s u.phone
             ((digitsToNat (filterDigits input).data : Nat) : Int) stk env.ts).2 true) := by
  have hb : (pyLower input == "back") = false := by simpa using hback
  have h1 : (pyLower input == "rates?") = false := by simpa using hr1
  have h2 : (pyLower input == "rates") = false := by simpa using hr2
  refine ⟨?_, ?_, ?_⟩
  · intro he
    have he2 : (filterDigits input == "") = true := by simp [he]
    unfold handleTopupAmount
    rw [hb, h1, h2]
    simp only [Bool.false_eq_true, Bool.or_self, if_false]
    rw [he2]
    rfl
  · intro he hlt
    have he2 : (filterDigits input == "") = false := by simpa using he
    unfold handleTopupAmount
    rw [hb, h1, h2]
    simp only [Bool.false_eq_true, Bool.or_self, if_false]
    rw [he2]
    simp only [Bool.false_eq_true, if_false]
    rw [if_pos hlt]
  · intro he hge hm
    have he2 : (filterDigits input == "") = false := by simpa using he
    unfold handleTopupAmount
    rw [hb, h1, h2]
    simp only [Bool.false_eq_true, Bool.or_self, if_false]
    rw [he2]
    simp only [Bool.false_eq_true, if_false]
    rw [if_neg (by omega), hm]

/-- C10 witness: the input "1.5" is accepted as 15 KES and produces the
pending record for 15 KES / 100 sats. -/
theorem c10_witness :
    pyLower "1.5" ≠ "back" ∧
    pyLower "1.5" ≠ "rates?" ∧
    pyLower "1.5" ≠ "rates" ∧
    filterDigits "1.5" ≠ "" ∧
    ((10 : Int) ≤ ((digitsToNat (filterDigits "1.5").data : Nat) : Int)) ∧
    c6Env.mpesa = .pushed (.push "mp1") ∧
    handleTopupAmount c10Sess "1.5" c6Env stZero =
      .done ("END " ++ (topupViaMpesa stZero c10Sess.phone
          ((digitsToNat (filterDigits "1.5").data : Nat) : Int) (.push "mp1") c6Env.ts).1.msg)
        c10Sess (topupViaMpesa stZero c10Sess.phone
          ((digitsToNat (filterDigits "1.5").data : Nat) : Int) (.push "mp1") c6Env.ts).2 true ∧
    (topupViaMpesa stZero c10Sess.phone 15 (.push "mp1") "t0").2.pending =
      [PendingRec.mk "+254715586044" "mp1" 15 100 "t0"] :=
  ⟨by decide, by decide, by decide, by decide, by decide, rfl,
   (c10_topup_parses_digit_filter c10Sess "1.5" c6Env stZero (.push "mp1")
      (by decide) (by decide) (by decide)).2.2 (by decide) (by decide) rfl,
   by decide⟩

/-- C7 amended: the digit-menu send flow re-prompts (without touching the
session, the store or the ledger) exactly when the parsed amount violates
`validate_amount`, whose policy is the 1-sat floor together with the
1,000,000-sat ceiling — the 10-sat floor of the claim exists only in the
natural-language send path. -/
theorem c7_amended_flow_floor_is_one_sat (u : USSDSession) (input : String) (env : Env)
    (s : St) (a b : Int)
    (hparse : pyInt input = some a)
    (hback : pyLower input ≠ "back")
    (hrange : a < 1 ∨ 1000000 < a) :
    handleSendBtcAmount u input env s =
      .done ("CON " ++ (validateAmount a).2 ++ "\nEnter amount in sats:") u s false ∧
    ((validateAmount b).1 = true ↔ 1 ≤ b ∧ b ≤ 1000000) := by
  constructor
  · have hb : (pyLower input == "back") = false := by simpa using hback
    have hv : (validateAmount a).1 = false := by
      cases hval : (validateAmount a).1
      · rfl
      · exfalso
        have := (validateAmount_ok a).mp hval
        omega
    unfold handleSendBtcAmount
    rw [hb]
    simp only [Bool.false_eq_true, if_false]
    rw [hparse]
    dsimp only
    rw [hv]
    rfl
  · exact validateAmount_ok b

/-- C7 amended witness: the amount 0 is re-prompted by the flow, and 500 is
within the ledger-layer policy. -/
theorem c7_amended_witness :
    pyInt "0" = some 0 ∧
    pyLower "0" ≠ "back" ∧
    ((0 : Int) < 1 ∨ 1000000 < (0 : Int)) ∧
    (handleSendBtcAmount c7Sess "0" c6Env c7St =
       .done ("CON " ++ (validateAmount 0).2 ++ "\nEnter amount in sats:") c7Sess c7St false ∧
     ((validateAmount 500).1 = true ↔ 1 ≤ (500 : Int) ∧ (500 : Int) ≤ 1000000)) :=
  ⟨by decide, by decide, by decide,
   c7_amended_flow_floor_is_one_sat c7Sess "0" c6Env c7St 0 500 (by decide) (by decide)
     (by decide)⟩

/-- A string that begins with `CON` still does after appending. -/
theorem take3_append (a b : String) (h : a.data.take 3 = ['C', 'O', 'N']) :
    (a ++ b).data.take 3 = ['C', 'O', 'N'] := by
  have hlen : 3 ≤ a.data.length := by
    have hl := congrArg List.length h
    rw [List.length_take] at hl
    simp only [List.length_cons, List.length_nil] at hl
    omega
  rw [String.data_append, List.take_append_of_le_length hlen]
  exact h

/-- C8 amended: with an active mid-flow AI context, every informational
input is answered without touching the context or the state, and the
response is a CON (non-terminal) message; rate questions (as in the spec
scenario, with `operation=topup_mpesa`, `awaiting=amount`) additionally
re-display the pending amount prompt, while other informational inputs such
as a bare fees question receive a generic CON guidance message. -/
theorem c8_amended_informational_keeps_context (st : St) (phone input : String)
    (c : AiCtx) (stk : StkPush) (ts : String)
    (hinfo : isInformationalRequest input = true) :
    (handleContextBasedResponse st phone input c stk ts).1 =
      handleInformationalRequestWithContext input c ∧
    (handleContextBasedResponse st phone input c stk ts).2.1 = some c ∧
    (handleContextBasedResponse st phone input c stk ts).2.2 = st ∧
    (handleInformationalRequestWithContext input c).data.take 3 = ['C', 'O', 'N'] ∧
    pyIn "Enter amount in KES:" (handleContextBasedResponse stZero phone "what is the rate"
      (AiCtx.mk "topup_mpesa" "amount" []) stk ts).1 = true := by
  have hred : handleContextBasedResponse st phone input c stk ts =
      (handleInformationalRequestWithContext input c, some c, st) := by
    unfold handleContextBasedResponse
    rw [if_pos hinfo]
  refine ⟨by rw [hred], by rw [hred], by rw [hred], ?_, ?_⟩
  · unfold handleInformationalRequestWithContext
    dsimp only
    split_ifs <;>
      first
        | decide
        | ((repeat apply take3_append); decide)
  · have hred2 : handleContextBasedResponse stZero phone "what is the rate"
        (AiCtx.mk "topup_mpesa" "amount" []) stk ts =
        (handleInformationalRequestWithContext "what is the rate"
           (AiCtx.mk "topup_mpesa" "amount" []),
         some (AiCtx.mk "topup_mpesa" "amount" []), stZero) := by
      unfold handleContextBasedResponse
      rw [if_pos (by decide)]
    rw [hred2]
    decide

/-- C8 amended witness: the informational input "continue" mid-top-up. -/
theorem c8_amended_witness :
    isInformationalRequest "continue" = true ∧
    ((handleContextBasedResponse stZero "+254715586044" "continue" c8Ctx (.push "mp1") "t0").1 =
       handleInformationalRequestWithContext "continue" c8Ctx ∧
     (handleContextBasedResponse stZero "+254715586044" "continue" c8Ctx (.push "mp1") "t0").2.1 =
       some c8Ctx ∧
     (handleContextBasedResponse stZero "+254715586044" "continue" c8Ctx (.push "mp1") "t0").2.2 =
       stZero ∧
     (handleInformationalRequestWithContext "continue" c8Ctx).data.take 3 = ['C', 'O', 'N'] ∧
     pyIn "Enter amount in KES:" (handleContextBasedResponse stZero "+254715586044"
       "what is the rate" (AiCtx.mk "topup_mpesa" "amount" []) (.push "mp1") "t0").1 = true) :=
  ⟨by decide,
   c8_amended_informational_keeps_context stZero "+254715586044" "continue" c8Ctx (.push "mp1")
     "t0" (by decide)⟩

/-- Rejected send for insufficient funds leaves every balance untouched. -/
theorem sendBtc_insufficient (s : St) (fp tp : String) (a : Int) (invId ts p : String)
    (h : s.db (normalizePhoneNumber fp) < a) :
    (sendBtc s fp tp a invId ts).1.ok = false ∧
    (sendBtc s fp tp a invId ts).2.db p = s.db p := by
  unfold sendBtc
  dsimp only
  simp only [getUserBalance_fst]
  split_ifs <;>
    first
      | exact ⟨rfl, rfl⟩
      | exact ⟨rfl, getUserBalance_db s (normalizePhoneNumber fp) p⟩

/-- Rejected withdrawal for insufficient funds leaves every balance
untouched. -/
theorem withdrawToMpesa_insufficient (s : St) (ph : String) (kes : Int) (m ts p : String)
    (h : s.db (normalizePhoneNumber ph) < kesToSatsI kes) :
    (withdrawToMpesa s ph kes m ts).1.ok = false ∧
    (withdrawToMpesa s ph kes m ts).2.db p = s.db p := by
  unfold withdrawToMpesa
  dsimp only
  simp only [getUserBalance_fst]
  split_ifs <;>
    first
      | exact ⟨rfl, rfl⟩
      | exact ⟨rfl, getUserBalance_db s (normalizePhoneNumber ph) p⟩

/-- Rejected airtime purchase for insufficient funds leaves every balance
untouched. -/
theorem buyAirtime_insufficient (s : St) (ph ap : String) (kes : Int) (ts p : String)
    (h : s.db (normalizePhoneNumber ph) < kesToSatsI kes) :
    (buyAirtime s ph ap kes ts).1.ok = false ∧
    (buyAirtime s ph ap kes ts).2.db p = s.db p := by
  unfold buyAirtime
  dsimp only
  simp only [getUserBalance_fst]
  split_ifs <;>
    first
      | exact ⟨rfl, rfl⟩
      | exact ⟨rfl, getUserBalance_db s (normalizePhoneNumber ph) p⟩

/-- Embeds `dbAdd` never produces a negative balance. -/
theorem dbAdd_nonneg (s : St) (p : String) (d : Int) (q : String)
    (hnn : ∀ r, 0 ≤ s.db r) : 0 ≤ (dbAdd s p d).db q := by
  rw [dbAdd_db]
  split
  · exact le_max_right _ 0
  · exact hnn q

/-- Embeds `updateBalance` preserves non-negativity when writing a non-negative
value. -/
theorem updateBalance_nonneg (s : St) (p : String) (v : Int) (q : String)
    (hnn : ∀ r, 0 ≤ s.db r) (hv : 0 ≤ v) : 0 ≤ (updateBalance s p v).db q := by
  rw [updateBalance_db]
  split
  · exact hv
  · exact hnn q

/-- Reading a balance preserves non-negativity. -/
theorem getUserBalance_nonneg (s : St) (p q : String)
    (hnn : ∀ r, 0 ≤ s.db r) : 0 ≤ (getUserBalance s p).2.db q := by
  rw [getUserBalance_db]
  exact hnn q

/-- Paying a mock invoice preserves non-negativity (the database update
clamps at zero). -/
theorem lnPayInvoice_nonneg (s : St) (uid pr q : String)
    (hnn : ∀ r, 0 ≤ s.db r) : 0 ≤ (lnPayInvoice s uid pr).2.db q := by
  unfold lnPayInvoice
  cases hf : s.invoices.find? (fun i => i.paymentRequest == pr) with
  | none => exact hnn q
  | some inv =>
      dsimp only
      split_ifs
      · exact hnn q
      · exact hnn q
      · show 0 ≤ (dbAdd (dbAdd s uid (-inv.amount)) inv.userId inv.amount).db q
        exact dbAdd_nonneg _ _ _ _ (fun r => dbAdd_nonneg _ _ _ r hnn)

/-- Embeds `send_btc` never leaves a negative balance. -/
theorem sendBtc_nonneg (s : St) (fp tp : String) (a : Int) (invId ts q : String)
    (hnn : ∀ r, 0 ≤ s.db r) : 0 ≤ (sendBtc s fp tp a invId ts).2.db q := by
  unfold sendBtc
  dsimp only
  simp only [getUserBalance_fst]
  split_ifs with h1 h2 h3 h4 h5
  · exact hnn q
  · exact hnn q
  · exact hnn q
  · exact getUserBalance_nonneg _ _ _ hnn
  · exact lnPayInvoice_nonneg _ _ _ _
      (fun r => getUserBalance_nonneg _ _ r hnn)
  · have hva : (validateAmount a).1 = true := by simpa using h3
    have hab := (validateAmount_ok a).mp hva
    apply updateBalance_nonneg
    · intro r
      apply getUserBalance_nonneg
      intro r2
      apply updateBalance_nonneg
      · intro r3
        exact lnPayInvoice_nonneg _ _ _ r3 (fun r4 => getUserBalance_nonneg _ _ r4 hnn)
      · omega
    · apply add_nonneg
      · apply updateBalance_nonneg
        · intro r3
          exact lnPayInvoice_nonneg _ _ _ r3 (fun r4 => getUserBalance_nonneg _ _ r4 hnn)
        · omega
      · omega

/-- Embeds `withdraw_to_mpesa` never leaves a negative balance. -/
theorem withdrawToMpesa_nonneg (s : St) (ph : String) (kes : Int) (m ts q : String)
    (hnn : ∀ r, 0 ≤ s.db r) : 0 ≤ (withdrawToMpesa s ph kes m ts).2.db q := by
  unfold withdrawToMpesa
  dsimp only
  simp only [getUserBalance_fst]
  split_ifs with h1 h2 h3
  · exact hnn q
  · exact hnn q
  · exact getUserBalance_nonneg _ _ _ hnn
  · show 0 ≤ (updateBalance (getUserBalance s (normalizePhoneNumber ph)).2
      (normalizePhoneNumber ph)
      (s.db (normalizePhoneNumber ph) - kesToSatsI kes)).db q
    apply updateBalance_nonneg
    · intro r
      exact getUserBalance_nonneg _ _ r hnn
    · omega

/-- Embeds `buy_airtime` never leaves a negative balance. -/
theorem buyAirtime_nonneg (s : St) (ph ap : String) (kes : Int) (ts q : String)
    (hnn : ∀ r, 0 ≤ s.db r) : 0 ≤ (buyAirtime s ph ap kes ts).2.db q := by
  unfold buyAirtime
  dsimp only
  simp only [getUserBalance_fst]
  split_ifs <;>
    first
      | exact hnn q
      | exact getUserBalance_nonneg _ _ _ hnn
      | exact (show 0 ≤ (updateBalance (getUserBalance s (normalizePhoneNumber ph)).2
            (normalizePhoneNumber ph)
            (s.db (normalizePhoneNumber ph) - kesToSatsI kes)).db q
          from updateBalance_nonneg _ _ _ _ (fun r => getUserBalance_nonneg _ _ r hnn)
            (by omega))

/-- Embeds `topup_via_mpesa` never touches a balance. -/
theorem topupViaMpesa_nonneg (s : St) (ph : String) (kes : Int) (stk : StkPush)
    (ts q : String) (hnn : ∀ r, 0 ≤ s.db r) :
    0 ≤ (topupViaMpesa s ph kes stk ts).2.db q := by
  unfold topupViaMpesa
  dsimp only
  split_ifs
  · exact hnn q
  · exact hnn q
  · cases stk <;> exact hnn q

/-- Embeds `complete_mpesa_topup` never leaves a negative balance provided every
pending record carries a non-negative sats amount (as every record the code
creates does). -/
theorem completeMpesaTopup_nonneg (s : St) (invId gw mref ts q : String)
    (hnn : ∀ r, 0 ≤ s.db r) (hp : ∀ x ∈ s.pending, 0 ≤ x.sats) :
    0 ≤ (completeMpesaTopup s invId gw mref ts).2.db q := by
  unfold completeMpesaTopup
  split_ifs with h1 h2
  · cases hf : s.pending.find? (fun r => r.invoiceId == invId) with
    | none => exact hnn q
    | some r =>
        have hr : 0 ≤ r.sats := hp r (List.mem_of_find?_eq_some hf)
        dsimp only
        show 0 ≤ (updateBalance (getUserBalance s r.phone).2 r.phone
          ((getUserBalance s r.phone).1 + r.sats)).db q
        apply updateBalance_nonneg
        · intro r2
          exact getUserBalance_nonneg _ _ r2 hnn
        · rw [getUserBalance_fst]
          have := hnn r.phone
          omega
  · exact hnn q
  · exact hnn q

/-- C5: an operation rejected for insufficient funds performs no balance
mutation (send, withdraw, airtime each compare the current balance against
the required amount and fail leaving every balance unchanged), and no
operation — send, withdraw, airtime, top-up initiation or reconciliation —
ever leaves any account with a negative balance. -/
theorem c5_insufficient_rejected_and_never_negative (s : St)
    (fp tp ph m ap fp2 tp2 ph2 m2 ap2 : String) (a kes kesA a2 kes2 kesA2 : Int)
    (invId ts p q gw mref : String) (stk : StkPush)
    (hnn : ∀ r, 0 ≤ s.db r)
    (hp : ∀ x ∈ s.pending, 0 ≤ x.sats)
    (hinsS : s.db (normalizePhoneNumber fp) < a)
    (hinsW : s.db (normalizePhoneNumber ph) < kesToSatsI kes)
    (hinsA : s.db (normalizePhoneNumber ap) < kesToSatsI kesA) :
    ((sendBtc s fp tp a invId ts).1.ok = false ∧
     (sendBtc s fp tp a invId ts).2.db p = s.db p) ∧
    ((withdrawToMpesa s ph kes m ts).1.ok = false ∧
     (withdrawToMpesa s ph kes m ts).2.db p = s.db p) ∧
    ((buyAirtime s ap m kesA ts).1.ok = false ∧
     (buyAirtime s ap m kesA ts).2.db p = s.db p) ∧
    0 ≤ (sendBtc s fp2 tp2 a2 invId ts).2.db q ∧
    0 ≤ (withdrawToMpesa s ph2 kes2 m2 ts).2.db q ∧
    0 ≤ (buyAirtime s ap2 m2 kesA2 ts).2.db q ∧
    0 ≤ (topupViaMpesa s ph2 kes2 stk ts).2.db q ∧
    0 ≤ (completeMpesaTopup s invId gw mref ts).2.db q :=
  ⟨sendBtc_insufficient s fp tp a invId ts p hinsS,
   withdrawToMpesa_insufficient s ph kes m ts p hinsW,
   buyAirtime_insufficient s ap m kesA ts p hinsA,
   sendBtc_nonneg s fp2 tp2 a2 invId ts q hnn,
   withdrawToMpesa_nonneg s ph2 kes2 m2 ts q hnn,
   buyAirtime_nonneg s ap2 m2 kesA2 ts q hnn,
   topupViaMpesa_nonneg s ph2 kes2 stk ts q hnn,
   completeMpesaTopup_nonneg s invId gw mref ts q hnn hp⟩

/-- C5 witness: balances of 1000 sats everywhere, a send of 50000 sats is
rejected with the balance unchanged, and each operation keeps balances
non-negative. -/
theorem c5_witness :
    (∀ r, 0 ≤ c5St.db r) ∧
    (∀ x ∈ c5St.pending, 0 ≤ x.sats) ∧
    c5St.db (normalizePhoneNumber "+254715586044") < 50000 ∧
    c5St.db (normalizePhoneNumber "+254715586044") < kesToSatsI 1000 ∧
    (((sendBtc c5St "+254715586044" "+254712345678" 50000 "inv1" "t0").1.ok = false ∧
      (sendBtc c5St "+254715586044" "+254712345678" 50000 "inv1" "t0").2.db "+254715586044"
        = c5St.db "+254715586044") ∧
     ((withdrawToMpesa c5St "+254715586044" 1000 "+254712345678" "t0").1.ok = false ∧
      (withdrawToMpesa c5St "+254715586044" 1000 "+254712345678" "t0").2.db "+254715586044"
        = c5St.db "+254715586044") ∧
     ((buyAirtime c5St "+254715586044" "+254712345678" 1000 "t0").1.ok = false ∧
      (buyAirtime c5St "+254715586044" "+254712345678" 1000 "t0").2.db "+254715586044"
        = c5St.db "+254715586044") ∧
     0 ≤ (sendBtc c5St "+254715586044" "+254712345678" 200 "inv1" "t0").2.db "+254715586044" ∧
     0 ≤ (withdrawToMpesa c5St "+254715586044" 100 "+254712345678" "t0").2.db "+254715586044" ∧
     0 ≤ (buyAirtime c5St "+254715586044" "+254712345678" 100 "t0").2.db "+254715586044" ∧
     0 ≤ (topupViaMpesa c5St "+254715586044" 100 (.push "mp1") "t0").2.db "+254715586044" ∧
     0 ≤ (completeMpesaTopup c5St "inv1" "COMPLETE" "ref" "t0").2.db "+254715586044") :=
  ⟨fun r => by simp [c5St, stZero], fun x hx => by simp [c5St, stZero] at hx,
   by decide, by decide,
   c5_insufficient_rejected_and_never_negative c5St
     "+254715586044" "+254712345678" "+254715586044" "+254712345678" "+254715586044"
     "+254715586044" "+254712345678" "+254715586044" "+254712345678" "+254715586044"
     50000 1000 1000 200 100 100
     "inv1" "t0" "+254715586044" "+254715586044" "COMPLETE" "ref" (.push "mp1")
     (fun r => by simp [c5St, stZero]) (fun x hx => by simp [c5St, stZero] at hx)
     (by decide) (by decide) (by decide)⟩

end Solyntra
